import Mathlib

/-!
Shallow embedding of the choir-binder-manager terminal application
(`src/models.rs`, `src/ui/screens.rs`, `src/ui/forms.rs`, `src/ui/app.rs`,
`src/db/binders.rs`) together with theorems settling the frozen claims.

Rust `String` values are embedded as `List Char` (`Str`); `usize` as `Nat`
(its subtraction is saturating, matching `saturating_sub`); `i64` as `Int`.
Rust's `char::to_lowercase` is embedded character-wise via `Char.toLower`
(exact on ASCII, which is all the string logic here distinguishes).
-/

namespace CBM

/-- Embedding of Rust `String` as a list of characters. -/
abbrev Str := List Char

/-- Coerce a Lean string literal into the `Str` embedding. -/
def lit (s : String) : Str := s.data

/-- Character-wise embedding of `str::to_lowercase`. -/
def toLowerStr (s : Str) : Str := s.map Char.toLower

/-- Embedding of `str::trim`: strip leading and trailing whitespace. -/
def trimStr (s : Str) : Str :=
  ((s.dropWhile Char.isWhitespace).reverse.dropWhile Char.isWhitespace).reverse

/-- Embedding of `str::contains(&str)`: substring containment test. -/
def containsSub (hay needle : Str) : Bool :=
  match hay with
  | [] => needle.isEmpty
  | _ :: t => needle.isPrefixOf hay || containsSub t needle

/-- Mirrors `containsSub` decides substring (infix) containment. -/
theorem containsSub_iff_infix (hay needle : Str) :
    containsSub hay needle = true ↔ needle <:+: hay := by
  induction hay with
  | nil =>
    simp [containsSub, List.isEmpty_iff, List.infix_nil]
  | cons c t ih =>
    simp only [containsSub, Bool.or_eq_true, List.isPrefixOf_iff_prefix, ih]
    constructor
    · rintro (h | h)
      · exact h.isInfix
      · exact h.trans (List.suffix_cons c t).isInfix
    · rintro ⟨s₁, s₂, h⟩
      match s₁, h with
      | [], h => exact Or.inl ⟨s₂, by simpa using h⟩
      | a :: s₁, h =>
        have h' : a :: (s₁ ++ needle ++ s₂) = c :: t := by simpa using h
        exact Or.inr ⟨s₁, s₂, ((List.cons.injEq _ _ _ _).mp h').2⟩

/-! ## Domain models (`src/models.rs`) -/

/-- Mirrors `Binder` row: id, user-chosen unique number, display label. -/
structure Binder where
  id : Int
  number : Int
  label : Str
deriving Repr, DecidableEq

/-- Mirrors `Song` row: id, title, composer, optional reference link. -/
structure Song where
  id : Int
  title : Str
  composer : Str
  link : Str
deriving Repr, DecidableEq

/-- Mirrors `Song::display_title`: `"{title} - {composer}"`, omitting the separator
when the composer is blank. -/
def Song.display_title (s : Song) : Str :=
  if (trimStr s.composer).isEmpty then s.title
  else s.title ++ lit " - " ++ s.composer

/-! ## Song manager screen (`src/ui/screens.rs`, `SongManagerScreen`) -/

/-- State of the global song-list manager screen. -/
structure SongManagerScreen where
  songs : List Song
  filtered_songs : List Song
  filter : Option Str
  show_only_no_link : Bool
  selected : Nat
deriving Repr, DecidableEq

/-- The list produced by `SongManagerScreen::apply_filter`: case-insensitive
substring match on title or composer, then the optional no-link restriction. -/
def applyFilterList (songs : List Song) (filter : Option Str)
    (showNoLink : Bool) : List Song :=
  let base :=
    match filter with
    | some q =>
      let ql := toLowerStr q
      if (trimStr ql).isEmpty then songs
      else songs.filter fun s =>
        containsSub (toLowerStr s.title) ql || containsSub (toLowerStr s.composer) ql
    | none => songs
  if showNoLink then base.filter (fun s => (trimStr s.link).isEmpty) else base

/-- Clamp rule applied to `selected` after refiltering. -/
def clampIdx (len idx : Nat) : Nat :=
  if len = 0 then 0 else if idx ≥ len then len - 1 else idx

/-- Mirrors `SongManagerScreen::apply_filter`. -/
def SongManagerScreen.apply_filter (scr : SongManagerScreen) : SongManagerScreen :=
  let fs := applyFilterList scr.songs scr.filter scr.show_only_no_link
  { scr with filtered_songs := fs, selected := clampIdx fs.length scr.selected }

/-- Mirrors `SongManagerScreen::ensure_in_bounds`. -/
def SongManagerScreen.ensure_in_bounds (scr : SongManagerScreen) : SongManagerScreen :=
  { scr with selected := clampIdx scr.filtered_songs.length scr.selected }

/-- Mirrors `SongManagerScreen::new`. -/
def SongManagerScreen.new (songs : List Song) : SongManagerScreen :=
  (SongManagerScreen.apply_filter
    { songs := songs, filtered_songs := [], filter := none,
      show_only_no_link := false, selected := 0 }).ensure_in_bounds

/-- Mirrors `SongManagerScreen::set_filter`. -/
def SongManagerScreen.set_filter (scr : SongManagerScreen) (filter : Option Str) :
    SongManagerScreen :=
  SongManagerScreen.apply_filter { scr with filter := filter }

/-- Mirrors `SongManagerScreen::toggle_show_no_link` (returns the new flag). -/
def SongManagerScreen.toggle_show_no_link (scr : SongManagerScreen) :
    Bool × SongManagerScreen :=
  let scr := SongManagerScreen.apply_filter
    { scr with show_only_no_link := !scr.show_only_no_link }
  (scr.show_only_no_link, scr)

/-- Mirrors `SongManagerScreen::current_song`. -/
def SongManagerScreen.current_song (scr : SongManagerScreen) : Option Song :=
  scr.filtered_songs.get? scr.selected

/-- Mirrors `SongManagerScreen::move_selection`. -/
def SongManagerScreen.move_selection (scr : SongManagerScreen) (offset : Int) :
    SongManagerScreen :=
  if scr.filtered_songs.isEmpty then scr
  else
    let len : Int := scr.filtered_songs.length
    let n0 : Int := (scr.selected : Int) + offset
    let n1 : Int := if n0 < 0 then 0 else n0
    let n2 : Int := if n1 ≥ len then len - 1 else n1
    { scr with selected := n2.toNat }

/-- Mirrors `SongManagerScreen::select_first`. -/
def SongManagerScreen.select_first (scr : SongManagerScreen) : SongManagerScreen :=
  if scr.filtered_songs.isEmpty then scr else { scr with selected := 0 }

/-- Mirrors `SongManagerScreen::select_last`. -/
def SongManagerScreen.select_last (scr : SongManagerScreen) : SongManagerScreen :=
  if scr.filtered_songs.isEmpty then scr
  else { scr with selected := scr.filtered_songs.length - 1 }

/-- Mirrors `SongManagerScreen::set_songs`. -/
def SongManagerScreen.set_songs (scr : SongManagerScreen) (songs : List Song) :
    SongManagerScreen :=
  SongManagerScreen.apply_filter { scr with songs := songs }

/-! ## Binder-detail song screen (`src/ui/screens.rs`, `SongScreen`) -/

/-- State of the per-binder song list. -/
structure SongScreen where
  binder : Binder
  songs : List Song
  filtered_songs : List Song
  filter : Option Str
  selected : Nat
deriving Repr, DecidableEq

/-- Mirrors `SongScreen::apply_filter` (no no-link restriction on this screen). -/
def SongScreen.apply_filter (scr : SongScreen) : SongScreen :=
  let fs := applyFilterList scr.songs scr.filter false
  { scr with filtered_songs := fs, selected := clampIdx fs.length scr.selected }

/-- Mirrors `SongScreen::ensure_in_bounds`. -/
def SongScreen.ensure_in_bounds (scr : SongScreen) : SongScreen :=
  { scr with selected := clampIdx scr.filtered_songs.length scr.selected }

/-- Mirrors `SongScreen::new`. -/
def SongScreen.new (binder : Binder) (songs : List Song) : SongScreen :=
  (SongScreen.apply_filter
    { binder := binder, songs := songs, filtered_songs := [],
      filter := none, selected := 0 }).ensure_in_bounds

/-- Mirrors `SongScreen::set_filter`. -/
def SongScreen.set_filter (scr : SongScreen) (filter : Option Str) : SongScreen :=
  SongScreen.apply_filter { scr with filter := filter }

/-- Mirrors `SongScreen::current_song`. -/
def SongScreen.current_song (scr : SongScreen) : Option Song :=
  scr.filtered_songs.get? scr.selected

/-- Mirrors `SongScreen::move_selection`. -/
def SongScreen.move_selection (scr : SongScreen) (offset : Int) : SongScreen :=
  if scr.filtered_songs.isEmpty then scr
  else
    let len : Int := scr.filtered_songs.length
    let n0 : Int := (scr.selected : Int) + offset
    let n1 : Int := if n0 < 0 then 0 else n0
    let n2 : Int := if n1 ≥ len then len - 1 else n1
    { scr with selected := n2.toNat }

/-- Mirrors `SongScreen::select_first`. -/
def SongScreen.select_first (scr : SongScreen) : SongScreen :=
  if scr.filtered_songs.isEmpty then scr else { scr with selected := 0 }

/-- Mirrors `SongScreen::select_last`. -/
def SongScreen.select_last (scr : SongScreen) : SongScreen :=
  if scr.filtered_songs.isEmpty then scr
  else { scr with selected := scr.filtered_songs.length - 1 }

/-- Mirrors `SongScreen::set_songs`. -/
def SongScreen.set_songs (scr : SongScreen) (songs : List Song) : SongScreen :=
  SongScreen.apply_filter { scr with songs := songs }

/-! ## To-Print report screen (`src/ui/screens.rs`, `ToPrintScreen`) -/

/-- Mirrors `ToPrintMode`: binder-grouped or song-grouped projection. -/
inductive ToPrintMode where
  | ByBinder
  | BySong
deriving Repr, DecidableEq

/-- Mirrors `MissingSong`: a director song absent from a binder plus its checkbox. -/
structure MissingSong where
  song : Song
  checked : Bool
deriving Repr, DecidableEq

/-- Mirrors `BinderReport`: missing songs aggregated for a single binder. -/
structure BinderReport where
  binder_id : Int
  binder_number : Int
  binder_label : Str
  songs : List MissingSong
deriving Repr, DecidableEq

/-- Mirrors `BinderRowKind`. -/
inductive BinderRowKind where
  | Header
  | Song
deriving Repr, DecidableEq

/-- Mirrors `BinderRow`: a rendered line of the binder-grouped projection. -/
structure BinderRow where
  kind : BinderRowKind
  text : Str
  binder_index : Option Nat
  song_index : Option Nat
deriving Repr, DecidableEq

/-- Mirrors `SongNeeded`: per-song running count of binders still missing it. -/
structure SongNeeded where
  song : Song
  needed : Nat
deriving Repr, DecidableEq

/-- Mirrors `SongRow`: a rendered line of the song-grouped projection. -/
structure SongRow where
  text : Str
  song : Option Song
deriving Repr, DecidableEq

/-- Decimal digits of a natural number as characters. -/
def natStr (n : Nat) : Str := (toString n).data

/-- Decimal rendering of an `i64`. -/
def intStr (n : Int) : Str := (toString n).data

/-- Rust `format!("{:02}", n)` for the binder numbers shown in headers. -/
def pad2 (n : Int) : Str :=
  let s := intStr n
  if s.length < 2 then '0' :: s else s

/-- Mirrors `SongRow::from_needed`. -/
def SongRow.from_needed (entry : SongNeeded) : SongRow :=
  let copies := if entry.needed = 1 then lit "copy" else lit "copies"
  { text := entry.song.display_title ++ lit "  (" ++ natStr entry.needed
      ++ lit " " ++ copies ++ lit ")",
    song := some entry.song }

/-- Mirrors `SongRow::placeholder`. -/
def SongRow.placeholder (text : Str) : SongRow :=
  { text := text, song := none }

/-- Byte/codepoint-lexicographic comparison of strings, as Rust `str::cmp`. -/
def cmpStr : Str → Str → Ordering
  | [], [] => Ordering.eq
  | [], _ :: _ => Ordering.lt
  | _ :: _, [] => Ordering.gt
  | a :: as, b :: bs =>
    if a < b then Ordering.lt
    else if b < a then Ordering.gt
    else cmpStr as bs

/-- The comparator of `ToPrintScreen::refresh_song_rows`: lowercase title,
then lowercase composer. Encoded as a `Bool`-valued "not greater" relation
for the stable merge sort. -/
def songNeededLe (a b : SongNeeded) : Bool :=
  match cmpStr (toLowerStr a.song.title) (toLowerStr b.song.title) with
  | Ordering.lt => true
  | Ordering.gt => false
  | Ordering.eq =>
    match cmpStr (toLowerStr a.song.composer) (toLowerStr b.song.composer) with
    | Ordering.gt => false
    | _ => true

/-- Full state of the To-Print screen. `scroll` is the Rust `u16`, kept as a
`Nat` reduced modulo `2 ^ 16` where the code casts. -/
structure ToPrintScreen where
  director_exists : Bool
  mode : ToPrintMode
  binder_reports : List BinderReport
  binder_rows : List BinderRow
  song_totals : List SongNeeded
  song_rows : List SongRow
  scroll : Nat
  selected_index : Nat
  pending_changes : Nat
deriving Repr, DecidableEq

namespace ToPrintScreen

/-- Mirrors `ToPrintScreen::current_len`. -/
def current_len (scr : ToPrintScreen) : Nat :=
  match scr.mode with
  | ToPrintMode.ByBinder => scr.binder_rows.length
  | ToPrintMode.BySong => scr.song_rows.length

/-- Mirrors `ToPrintScreen::max_scroll` (`as u16` cast modelled by `% 2 ^ 16`). -/
def max_scroll (scr : ToPrintScreen) : Nat :=
  if !scr.director_exists then 0
  else (scr.current_len - 1) % 65536

/-- Mirrors `ToPrintScreen::update_scroll`. -/
def update_scroll (scr : ToPrintScreen) : ToPrintScreen :=
  if !scr.director_exists then { scr with scroll := 0, selected_index := 0 }
  else if scr.current_len = 0 then { scr with scroll := 0, selected_index := 0 }
  else
    let desired := (scr.selected_index - 3) % 65536
    { scr with scroll := min desired scr.max_scroll }

/-- The rows built by `ToPrintScreen::refresh_binder_rows`: a header per
report followed by one checkbox row per missing song. -/
def mkBinderRows (reports : List BinderReport) : List BinderRow :=
  (reports.enum.map fun (bi, r) =>
    ({ kind := BinderRowKind.Header,
       text := lit "Binder " ++ pad2 r.binder_number ++ lit " • " ++ r.binder_label,
       binder_index := some bi, song_index := none } : BinderRow)
    :: r.songs.enum.map fun (si, m) =>
      ({ kind := BinderRowKind.Song,
         text := (if m.checked then lit "[x]" else lit "[ ]")
           ++ lit " " ++ m.song.display_title,
         binder_index := some bi, song_index := some si } : BinderRow)).flatten

/-- Mirrors `ToPrintScreen::refresh_binder_rows`. -/
def refresh_binder_rows (scr : ToPrintScreen) : ToPrintScreen :=
  if !scr.director_exists then { scr with binder_rows := [] }
  else
    let scr := { scr with binder_rows := mkBinderRows scr.binder_reports }
    if scr.mode = ToPrintMode.ByBinder then
      (({ scr with selected_index := clampIdx scr.current_len scr.selected_index }
        : ToPrintScreen)).update_scroll
    else scr

/-- The rows built by `ToPrintScreen::refresh_song_rows`: entries still
needed, stably sorted by lowercase title then composer, or a placeholder. -/
def mkSongRows (totals : List SongNeeded) : List SongRow :=
  let needs := (totals.filter (fun e => e.needed > 0)).mergeSort songNeededLe
  let rows := needs.map SongRow.from_needed
  if rows.isEmpty then [SongRow.placeholder (lit "No songs need printing.")] else rows

/-- Mirrors `ToPrintScreen::refresh_song_rows`. -/
def refresh_song_rows (scr : ToPrintScreen) : ToPrintScreen :=
  let scr := { scr with song_rows := mkSongRows scr.song_totals }
  if scr.mode = ToPrintMode.BySong then
    (({ scr with selected_index := clampIdx scr.current_len scr.selected_index }
      : ToPrintScreen)).update_scroll
  else scr

/-- Mirrors `ToPrintScreen::with_data`. -/
def with_data (binder_reports : List BinderReport) (song_totals : List SongNeeded) :
    ToPrintScreen :=
  (({ director_exists := true, mode := ToPrintMode.ByBinder,
      binder_reports := binder_reports, binder_rows := [],
      song_totals := song_totals, song_rows := [],
      scroll := 0, selected_index := 0, pending_changes := 0 }
    : ToPrintScreen)).refresh_binder_rows.refresh_song_rows

/-- Mirrors `ToPrintScreen::missing_director`. -/
def missing_director : ToPrintScreen :=
  { director_exists := false, mode := ToPrintMode.ByBinder,
    binder_reports := [], binder_rows := [], song_totals := [], song_rows := [],
    scroll := 0, selected_index := 0, pending_changes := 0 }

/-- Mirrors `ToPrintScreen::toggle_mode`. -/
def toggle_mode (scr : ToPrintScreen) : ToPrintScreen :=
  if !scr.director_exists then scr
  else
    let m := match scr.mode with
      | ToPrintMode.ByBinder => ToPrintMode.BySong
      | ToPrintMode.BySong => ToPrintMode.ByBinder
    (({ scr with mode := m, selected_index := 0, scroll := 0 }
      : ToPrintScreen)).update_scroll

/-- Mirrors `ToPrintScreen::move_selection`. -/
def move_selection (scr : ToPrintScreen) (delta : Int) : ToPrintScreen :=
  if !scr.director_exists then scr
  else if scr.current_len = 0 then { scr with selected_index := 0, scroll := 0 }
  else
    let len : Int := scr.current_len
    let n0 : Int := (scr.selected_index : Int) + delta
    let n1 : Int := if n0 < 0 then 0 else n0
    let n2 : Int := if n1 ≥ len then len - 1 else n1
    (({ scr with selected_index := n2.toNat } : ToPrintScreen)).update_scroll

/-- Mirrors `ToPrintScreen::select_first`. -/
def select_first (scr : ToPrintScreen) : ToPrintScreen :=
  if !scr.director_exists then scr
  else (({ scr with selected_index := 0 } : ToPrintScreen)).update_scroll

/-- Mirrors `ToPrintScreen::select_last`. -/
def select_last (scr : ToPrintScreen) : ToPrintScreen :=
  if !scr.director_exists then scr
  else
    let len := scr.current_len
    (({ scr with selected_index := if len = 0 then 0 else len - 1 }
      : ToPrintScreen)).update_scroll

/-- Mirrors `ToPrintScreen::has_pending_changes`. -/
def has_pending_changes (scr : ToPrintScreen) : Bool :=
  scr.pending_changes > 0

/-- Mirrors `ToPrintScreen::pending_assignments`: every checked (binder, song) pair. -/
def pending_assignments (scr : ToPrintScreen) : List (Int × Int) :=
  scr.binder_reports.flatMap fun r =>
    (r.songs.filter (fun m => m.checked)).map fun m => (r.binder_id, m.song.id)

/-- Mirrors `ToPrintScreen::adjust_song_needed` on the totals list alone: bump the
first entry matching the id by `delta`, floored at zero (`.max(0) as usize`). -/
def adjustTotals : List SongNeeded → Int → Int → List SongNeeded
  | [], _, _ => []
  | e :: rest, sid, delta =>
    if e.song.id = sid then
      { e with needed := ((e.needed : Int) + delta).toNat } :: rest
    else e :: adjustTotals rest sid delta

/-- Mirrors `ToPrintScreen::adjust_song_needed` (ends by refreshing the song rows). -/
def adjust_song_needed (scr : ToPrintScreen) (sid : Int) (delta : Int) :
    ToPrintScreen :=
  (({ scr with song_totals := adjustTotals scr.song_totals sid delta }
    : ToPrintScreen)).refresh_song_rows

/-- Replace the element at an index, leaving the list unchanged out of range. -/
def modifyAt : List α → Nat → (α → α) → List α
  | [], _, _ => []
  | x :: xs, 0, f => f x :: xs
  | x :: xs, i + 1, f => x :: modifyAt xs i f

/-- Mirrors `ToPrintScreen::toggle_current`. Only flips in binder-grouped mode on a
song row; returns the new checked state when a flip happened. The indices
recorded on rows built by `refresh_binder_rows` are always in range, so the
in-range lookup mirrors the source's direct indexing. -/
def toggle_current (scr : ToPrintScreen) : Option Bool × ToPrintScreen :=
  if !scr.director_exists || scr.mode ≠ ToPrintMode.ByBinder then (none, scr)
  else
    match scr.binder_rows.get? scr.selected_index with
    | none => (none, scr)
    | some row =>
      if row.kind ≠ BinderRowKind.Song then (none, scr)
      else
        match row.binder_index, row.song_index with
        | some bi, some si =>
          match (scr.binder_reports.get? bi).bind (fun r => r.songs.get? si) with
          | none => (none, scr)
          | some entry =>
            let now_checked := !entry.checked
            let reports := modifyAt scr.binder_reports bi (fun r =>
              { r with songs := modifyAt r.songs si (fun m =>
                  { m with checked := !m.checked }) })
            let scr := { scr with binder_reports := reports }
            let scr :=
              if now_checked then
                (({ scr with pending_changes := scr.pending_changes + 1 }
                  : ToPrintScreen)).adjust_song_needed entry.song.id (-1)
              else
                (({ scr with pending_changes := scr.pending_changes - 1 }
                  : ToPrintScreen)).adjust_song_needed entry.song.id 1
            (some now_checked, scr.refresh_binder_rows)
        | _, _ => (none, scr)

end ToPrintScreen

/-! ## To-Print report construction (`src/ui/app.rs`, `App::open_to_print_view`) -/

/-- First entry of the running totals matching a song id is bumped; a fresh
entry with count 1 is appended when none matches. -/
def bumpNeeded : List SongNeeded → Song → List SongNeeded
  | [], s => [{ song := s, needed := 1 }]
  | e :: rest, s =>
    if e.song.id = s.id then { e with needed := e.needed + 1 } :: rest
    else e :: bumpNeeded rest s

/-- The inner loop of `open_to_print_view`: walk the director songs, collect
the ones not linked to the binder (unchecked) and bump the running totals. -/
def collectMissing (directorSongs : List Song) (linkedIds : List Int)
    (totals : List SongNeeded) : List MissingSong × List SongNeeded :=
  match directorSongs with
  | [] => ([], totals)
  | s :: rest =>
    if linkedIds.contains s.id then collectMissing rest linkedIds totals
    else
      let out := collectMissing rest linkedIds (bumpNeeded totals s)
      (({ song := s, checked := false } : MissingSong) :: out.1, out.2)

/-- The outer loop of `open_to_print_view` over the non-director binders:
thread the totals, keep a report only when something is missing. -/
def buildReports (songsFor : Int → List Song) (directorSongs : List Song) :
    List Binder → List SongNeeded → List BinderReport × List SongNeeded
  | [], totals => ([], totals)
  | b :: rest, totals =>
    let linkedIds := (songsFor b.id).map (fun s => s.id)
    let step := collectMissing directorSongs linkedIds totals
    let out := buildReports songsFor directorSongs rest step.2
    if step.1.isEmpty then out
    else (({ binder_id := b.id, binder_number := b.number,
             binder_label := b.label, songs := step.1 } : BinderReport) :: out.1,
          out.2)

/-- Mirrors `App::open_to_print_view`, as a function of the cached binder list and of
the store's per-binder song lists (`fetch_songs_for_binder`). -/
def open_to_print_view (binders : List Binder) (songsFor : Int → List Song) :
    ToPrintScreen :=
  match binders.find? (fun b => b.number == 0) with
  | some director =>
    let directorSongs := songsFor director.id
    let out := buildReports songsFor directorSongs
      (binders.filter (fun b => b.id != director.id)) []
    ToPrintScreen.with_data out.1 out.2
  | none => ToPrintScreen.missing_director

/-! ## Forms (`src/ui/forms.rs`) -/

/-- Unicode Cc test, embedding Rust `char::is_control`. -/
def isControlChar (c : Char) : Bool :=
  c.toNat < 32 || (c.toNat ≥ 127 && c.toNat ≤ 159)

/-- Mirrors `BinderField`. -/
inductive BinderField where
  | Number
  | Label
deriving Repr, DecidableEq

/-- Error values are embedded as `anyhow` chains: the outermost context
message first, the root cause last. -/
abbrev ErrChain := List Str

/-- Mirrors `surface_error` (`src/ui/helpers.rs`): surface the deepest cause. -/
def surface_error (err : ErrChain) : Str := (err.getLast?).getD []

/-- Mirrors `BinderForm`. -/
structure BinderForm where
  number : Str
  label : Str
  active : BinderField
  error : Option Str
deriving Repr, DecidableEq

namespace BinderForm

/-- Mirrors `BinderForm::default`. -/
def default : BinderForm :=
  { number := [], label := [], active := BinderField.Number, error := none }

/-- Mirrors `BinderForm::with_number`. -/
def with_number (number : Int) : BinderForm :=
  if number > 0 then { default with number := intStr number } else default

/-- Mirrors `BinderForm::from_binder`. -/
def from_binder (b : Binder) : BinderForm :=
  { number := intStr b.number, label := b.label,
    active := BinderField.Number, error := none }

/-- Mirrors `BinderForm::focus`. -/
def focus (f : BinderForm) (field : BinderField) : BinderForm :=
  { f with active := field }

/-- Mirrors `BinderForm::toggle_field`. -/
def toggle_field (f : BinderForm) : BinderForm :=
  { f with active := match f.active with
      | BinderField.Number => BinderField.Label
      | BinderField.Label => BinderField.Number }

/-- Mirrors `BinderForm::push_char`: digits only in the number field. -/
def push_char (f : BinderForm) (ch : Char) : Bool × BinderForm :=
  match f.active with
  | BinderField.Number =>
    if ch.isDigit then (true, { f with number := f.number ++ [ch] })
    else (false, f)
  | BinderField.Label =>
    if !isControlChar ch then (true, { f with label := f.label ++ [ch] })
    else (false, f)

/-- Mirrors `BinderForm::backspace`. -/
def backspace (f : BinderForm) : BinderForm :=
  match f.active with
  | BinderField.Number => { f with number := f.number.dropLast }
  | BinderField.Label => { f with label := f.label.dropLast }

end BinderForm

/-- Embedding of `str::parse::<i64>`, with the `ParseIntError` display
strings as root causes. -/
def parseI64 (s : Str) : Except Str Int :=
  match s with
  | [] => Except.error (lit "cannot parse integer from empty string")
  | _ =>
    let signed := match s with
      | '-' :: rest => (true, rest)
      | '+' :: rest => (false, rest)
      | _ => (false, s)
    if signed.2.isEmpty || signed.2.any (fun c => !c.isDigit) then
      Except.error (lit "invalid digit found in string")
    else
      let n : Nat := signed.2.foldl (fun acc c => acc * 10 + (c.toNat - 48)) 0
      let v : Int := if signed.1 then -(n : Int) else (n : Int)
      if v < -(2 ^ 63) then Except.error (lit "number too small to fit in target type")
      else if v ≥ 2 ^ 63 then Except.error (lit "number too large to fit in target type")
      else Except.ok v

/-- Mirrors `BinderForm::parse_inputs`. -/
def BinderForm.parse_inputs (f : BinderForm) : Except ErrChain (Int × Str) :=
  let numberRaw := trimStr f.number
  if numberRaw.isEmpty then Except.error [lit "Binder number is required."]
  else
    match parseI64 numberRaw with
    | Except.error cause =>
      Except.error [lit "Binder number must be an integer.", cause]
    | Except.ok number =>
      let label := trimStr f.label
      if label.isEmpty then Except.error [lit "Binder label is required."]
      else Except.ok (number, label)

/-- Mirrors `SongField`. -/
inductive SongField where
  | Title
  | Composer
  | Link
deriving Repr, DecidableEq

/-- Mirrors `SongForm`, including autocomplete tracking. -/
structure SongForm where
  title : Str
  composer : Str
  link : Str
  active : SongField
  error : Option Str
  suggestion : Option Str
  autocomplete_disabled : Bool
deriving Repr, DecidableEq

namespace SongForm

/-- Mirrors `SongForm::default`. -/
def default : SongForm :=
  { title := [], composer := [], link := [], active := SongField.Title,
    error := none, suggestion := none, autocomplete_disabled := false }

/-- Mirrors `SongForm::from_song`. -/
def from_song (s : Song) : SongForm :=
  { title := s.title, composer := s.composer, link := s.link,
    active := SongField.Title, error := none, suggestion := none,
    autocomplete_disabled := false }

/-- Mirrors `SongForm::clear_suggestion`. -/
def clear_suggestion (f : SongForm) : SongForm := { f with suggestion := none }

/-- Mirrors `SongForm::toggle_field`. -/
def toggle_field (f : SongForm) : SongForm :=
  let f := { f with active := match f.active with
      | SongField.Title => SongField.Composer
      | SongField.Composer => SongField.Link
      | SongField.Link => SongField.Title }
  if f.active ≠ SongField.Composer then f.clear_suggestion else f

/-- Mirrors `SongForm::push_char`. -/
def push_char (f : SongForm) (ch : Char) : Bool × SongForm :=
  if isControlChar ch then (false, f)
  else
    match f.active with
    | SongField.Title => (true, { f with title := f.title ++ [ch] })
    | SongField.Composer =>
      (true, { f with autocomplete_disabled := false,
                      composer := f.composer ++ [ch] })
    | SongField.Link => (true, { f with link := f.link ++ [ch] })

/-- Mirrors `SongForm::backspace`. -/
def backspace (f : SongForm) : SongForm :=
  match f.active with
  | SongField.Title => { f with title := f.title.dropLast }
  | SongField.Composer =>
    { f with composer := f.composer.dropLast, autocomplete_disabled := false }
  | SongField.Link => { f with link := f.link.dropLast }

/-- Mirrors `SongForm::parse_inputs`. -/
def parse_inputs (f : SongForm) : Except ErrChain (Str × Str × Str) :=
  let title := trimStr f.title
  if title.isEmpty then Except.error [lit "Song title is required."]
  else Except.ok (title, trimStr f.composer, trimStr f.link)

/-- Mirrors `SongForm::update_suggestion`. -/
def update_suggestion (f : SongForm) (composers : List Str) : SongForm :=
  if f.active ≠ SongField.Composer then f.clear_suggestion
  else if f.autocomplete_disabled || f.composer.length < 2 then f.clear_suggestion
  else
    let currentLower := toLowerStr f.composer
    match composers.find? (fun c => currentLower.isPrefixOf (toLowerStr c)) with
    | some candidate =>
      if candidate.length = f.composer.length ∧ toLowerStr candidate = currentLower
      then { f with suggestion := none }
      else { f with suggestion := some candidate }
    | none => { f with suggestion := none }

/-- Mirrors `SongForm::suggestion_suffix`. -/
def suggestion_suffix (f : SongForm) : Option Str :=
  match f.suggestion with
  | none => none
  | some candidate =>
    if candidate.length < f.composer.length then none
    else
      let suffix := candidate.drop f.composer.length
      if suffix.isEmpty then none else some suffix

/-- Mirrors `SongForm::accept_suggestion`. -/
def accept_suggestion (f : SongForm) : Bool × SongForm :=
  if (f.suggestion_suffix).isSome then
    match f.suggestion with
    | some candidate =>
      (true, { f with composer := candidate, autocomplete_disabled := true,
                      suggestion := none })
    | none => (false, f)
  else (false, f)

/-- Mirrors `SongForm::cancel_autocomplete`. -/
def cancel_autocomplete (f : SongForm) : Bool × SongForm :=
  if f.active = SongField.Composer ∧ (f.suggestion).isSome then
    (true, { f with autocomplete_disabled := true, suggestion := none })
  else (false, f)

/-- Mirrors `SongForm::has_active_suggestion`. -/
def has_active_suggestion (f : SongForm) : Bool :=
  f.active = SongField.Composer && (f.suggestion).isSome

end SongForm

/-- Mirrors `ConfirmBinderDelete`. -/
structure ConfirmBinderDelete where
  id : Int
  number : Int
  label : Str
deriving Repr, DecidableEq

/-- Mirrors `ConfirmSongRemove`. -/
structure ConfirmSongRemove where
  binder_id : Int
  song : Song
deriving Repr, DecidableEq

/-- Mirrors `ConfirmSongDelete`. -/
structure ConfirmSongDelete where
  song : Song
deriving Repr, DecidableEq

/-- Mirrors `ConfirmPrintChoice`. -/
inductive ConfirmPrintChoice where
  | Apply
  | Discard
  | Cancel
deriving Repr, DecidableEq

/-- Mirrors `ConfirmToPrintExit`: whether the app is quitting and which button is lit. -/
structure ConfirmToPrintExit where
  exit_app : Bool
  selection : ConfirmPrintChoice
deriving Repr, DecidableEq

/-- Mirrors `ConfirmToPrintExit::new`: initial selection on "Apply". -/
def ConfirmToPrintExit.new (exit_app : Bool) : ConfirmToPrintExit :=
  { exit_app := exit_app, selection := ConfirmPrintChoice.Apply }

/-- Mirrors `AddSongItem` (song picker entries). -/
inductive AddSongItem where
  | CreateNew
  | Existing (song : Song)
deriving Repr, DecidableEq

/-- Mirrors `AddSongState` (the `HashSet` of checked ids embedded as a list). -/
structure AddSongState where
  binder_id : Int
  items : List AddSongItem
  selected : Nat
  checked : List Int
  director_song_ids : List Int
deriving Repr, DecidableEq

/-! ## Application controller (`src/ui/app.rs`) -/

/-- Cross-platform key events fed by the driver (`crossterm::KeyCode`,
restricted to the variants the controller matches on). -/
inductive KeyCode where
  | Char (c : Char)
  | Esc
  | Enter
  | Tab
  | BackTab
  | Backspace
  | Up
  | Down
  | Left
  | Right
  | PageUp
  | PageDown
  | Home
  | End
deriving Repr, DecidableEq

/-- Mirrors `SearchTarget`. -/
inductive SearchTarget where
  | Songs
  | SongManager
deriving Repr, DecidableEq

/-- Mirrors `SearchState`. -/
structure SearchState where
  target : SearchTarget
  query : Str
deriving Repr, DecidableEq

/-- Mirrors `StatusKind`. -/
inductive StatusKind where
  | Info
  | Error
deriving Repr, DecidableEq

/-- Mirrors `StatusMessage`. -/
structure StatusMessage where
  text : Str
  kind : StatusKind
deriving Repr, DecidableEq

/-- Mirrors `Screen`: the four top-level navigation states. -/
inductive Screen where
  | Binders
  | Songs (state : SongScreen)
  | SongManager (state : SongManagerScreen)
  | ToPrint (state : ToPrintScreen)
deriving Repr, DecidableEq

/-- Mirrors `Mode`: the single active interaction overlay. -/
inductive Mode where
  | Normal
  | AddingBinder (form : BinderForm)
  | EditingBinder (id : Int) (form : BinderForm)
  | ConfirmBinderDelete (confirm : ConfirmBinderDelete)
  | EditingSong (song_id : Int) (form : SongForm)
  | ConfirmSongRemove (confirm : ConfirmSongRemove)
  | SelectingSong (state : AddSongState)
  | ConfirmSongDelete (confirm : ConfirmSongDelete)
  | CreatingSong (binder_id : Option Int) (form : SongForm)
  | ConfirmToPrintExit (confirm : ConfirmToPrintExit)
  | Searching (state : SearchState)
deriving Repr, DecidableEq

/-- Mirrors `App` state, without the store connection (the store itself is embedded
separately as `DbState`). -/
structure App where
  binders : List Binder
  selected : Nat
  composers : List Str
  screen : Screen
  mode : Mode
  status : Option StatusMessage
  saved_search : Option SearchState
deriving Repr, DecidableEq

/-- Grid width of the binder screen (`GRID_COLUMNS`). -/
def GRID_COLUMNS : Nat := 4

namespace App

/-- Mirrors `App::set_status`. -/
def set_status (app : App) (text : Str) (kind : StatusKind) : App :=
  { app with status := some { text := text, kind := kind } }

/-- Mirrors `App::clear_status`. -/
def clear_status (app : App) : App := { app with status := none }

/-- Mirrors `App::binder_count`. -/
def binder_count (app : App) : Nat := app.binders.length

/-- Mirrors `App::move_horizontal`: shift the grid cursor by `offset`, only when the
target index stays inside `[0, binder_count)`. -/
def move_horizontal (app : App) (offset : Int) : App :=
  match app.screen with
  | Screen.Binders =>
    if app.binders.isEmpty then app
    else
      let newIndex : Int := (app.selected : Int) + offset
      if 0 ≤ newIndex ∧ newIndex < (app.binder_count : Int) then
        { app with selected := newIndex.toNat }
      else app
  | _ => app

/-- Mirrors `App::move_vertical`: shift the grid cursor by whole rows. -/
def move_vertical (app : App) (offset : Int) : App :=
  match app.screen with
  | Screen.Binders =>
    if app.binders.isEmpty then app
    else
      let cols : Int := (GRID_COLUMNS : Int)
      let newIndex : Int := (app.selected : Int) + offset * cols
      if 0 ≤ newIndex ∧ newIndex < (app.binder_count : Int) then
        { app with selected := newIndex.toNat }
      else app
  | _ => app

end App

/-- Outcome of one key handled on the To-Print screen in Normal mode: the
next overlay mode, whether the app terminates, the resulting screen and the
resulting status line. -/
structure ToPrintKeyOutcome where
  mode : Mode
  exit : Bool
  screen : Screen
  status : Option StatusMessage
deriving Repr, DecidableEq

/-- The `Screen::ToPrint` arm of `App::handle_normal_key`. -/
def handleToPrintNormal (code : KeyCode) (report : ToPrintScreen)
    (status : Option StatusMessage) : ToPrintKeyOutcome :=
  match code with
  | KeyCode.Char 'q' =>
    if report.has_pending_changes then
      { mode := Mode.ConfirmToPrintExit (ConfirmToPrintExit.new true),
        exit := false, screen := Screen.ToPrint report, status := status }
    else
      { mode := Mode.Normal, exit := true,
        screen := Screen.ToPrint report, status := status }
  | KeyCode.Esc | KeyCode.Char 'p' | KeyCode.Char 'P' =>
    if report.has_pending_changes then
      { mode := Mode.ConfirmToPrintExit (ConfirmToPrintExit.new false),
        exit := false, screen := Screen.ToPrint report, status := status }
    else
      { mode := Mode.Normal, exit := false,
        screen := Screen.Binders, status := none }
  | KeyCode.Tab | KeyCode.BackTab | KeyCode.Char 't' | KeyCode.Char 'T' =>
    { mode := Mode.Normal, exit := false,
      screen := Screen.ToPrint report.toggle_mode, status := status }
  | KeyCode.Up =>
    { mode := Mode.Normal, exit := false,
      screen := Screen.ToPrint (report.move_selection (-1)), status := status }
  | KeyCode.Down =>
    { mode := Mode.Normal, exit := false,
      screen := Screen.ToPrint (report.move_selection 1), status := status }
  | KeyCode.PageUp =>
    { mode := Mode.Normal, exit := false,
      screen := Screen.ToPrint (report.move_selection (-5)), status := status }
  | KeyCode.PageDown =>
    { mode := Mode.Normal, exit := false,
      screen := Screen.ToPrint (report.move_selection 5), status := status }
  | KeyCode.Home =>
    { mode := Mode.Normal, exit := false,
      screen := Screen.ToPrint report.select_first, status := status }
  | KeyCode.End =>
    { mode := Mode.Normal, exit := false,
      screen := Screen.ToPrint report.select_last, status := status }
  | KeyCode.Char ' ' =>
    let out := report.toggle_current
    let status' := match out.1 with
      | some true => some { text := lit "Marked song as added.", kind := StatusKind.Info }
      | some false => some { text := lit "Song unchecked.", kind := StatusKind.Info }
      | none => status
    { mode := Mode.Normal, exit := false,
      screen := Screen.ToPrint out.2, status := status' }
  | _ =>
    { mode := Mode.Normal, exit := false,
      screen := Screen.ToPrint report, status := status }

/-! ## Persistence gateway for binders (`src/db/binders.rs`) -/

/-- The store's binder table plus the rowid counter. -/
structure DbState where
  binders : List Binder
  nextBinderId : Int
deriving Repr, DecidableEq

/-- Mirrors `fetch_binders`: all rows ordered by `number` (stable sort). -/
def fetch_binders (db : DbState) : List Binder :=
  db.binders.mergeSort (fun a b => a.number ≤ b.number)

/-- Mirrors `create_binder` against the `binders.number UNIQUE` constraint declared
in `src/db/connection.rs`: a duplicate number raises the constraint error
that `map_unique_constraint` rewords, wrapped in the insert context. -/
def create_binder (db : DbState) (number : Int) (label : Str) :
    Except ErrChain (DbState × Binder) :=
  if db.binders.any (fun b => b.number == number) then
    Except.error [lit "failed to insert binder",
      lit "Binder number " ++ intStr number ++ lit " already exists."]
  else
    let binder : Binder := { id := db.nextBinderId, number := number, label := label }
    Except.ok ({ binders := db.binders ++ [binder],
                 nextBinderId := db.nextBinderId + 1 }, binder)

/-- Mirrors `App::reload_binders`: refresh the cache from the store and re-point the
cursor at the given id. -/
def App.reload_binders (app : App) (db : DbState) (focusId : Option Int) : App :=
  let binders := fetch_binders db
  let app := { app with binders := binders }
  match focusId with
  | some id =>
    match binders.findIdx? (fun b => b.id == id) with
    | some idx => { app with selected := idx }
    | none => app
  | none => app

/-- Mirrors `App::save_new_binder`. -/
def App.save_new_binder (app : App) (db : DbState) (form : BinderForm) :
    Except ErrChain (App × DbState) :=
  match form.parse_inputs with
  | Except.error e => Except.error e
  | Except.ok (number, label) =>
    match create_binder db number label with
    | Except.error e => Except.error e
    | Except.ok (db, binder) =>
      let app := app.reload_binders db (some binder.id)
      Except.ok
        (app.set_status (lit "Added Binder " ++ pad2 binder.number ++ lit ".")
          StatusKind.Info, db)

/-- Mirrors `App::handle_add_binder`. -/
def handle_add_binder (code : KeyCode) (form : BinderForm) (app : App)
    (db : DbState) : Mode × App × DbState :=
  match code with
  | KeyCode.Esc =>
    (Mode.Normal,
     app.set_status (lit "Add binder cancelled.") StatusKind.Info, db)
  | KeyCode.Tab | KeyCode.BackTab => (Mode.AddingBinder form.toggle_field, app, db)
  | KeyCode.Backspace => (Mode.AddingBinder form.backspace, app, db)
  | KeyCode.Enter =>
    match app.save_new_binder db form with
    | Except.ok (app, db) => (Mode.Normal, app, db)
    | Except.error err =>
      let message := surface_error err
      (Mode.AddingBinder { form with error := some message },
       app.set_status message StatusKind.Error, db)
  | KeyCode.Char ch =>
    let out := form.push_char ch
    (Mode.AddingBinder (if out.1 then { out.2 with error := none } else out.2),
     app, db)
  | _ => (Mode.AddingBinder form, app, db)

/-! ## Selection-bounds invariant of the song-list screens -/

/-- A song-list selection is valid: zero on an empty list, in bounds
otherwise. -/
def SelOkFor (filtered : List Song) (selected : Nat) : Prop :=
  (filtered = [] → selected = 0) ∧ (filtered ≠ [] → selected < filtered.length)

/-- The invariant for the song-manager screen. -/
def SmOk (scr : SongManagerScreen) : Prop := SelOkFor scr.filtered_songs scr.selected

/-- The invariant for the binder-detail song screen. -/
def SsOk (scr : SongScreen) : Prop := SelOkFor scr.filtered_songs scr.selected

theorem clampIdx_selOk (fs : List Song) (i : Nat) : SelOkFor fs (clampIdx fs.length i) := by
  constructor
  · intro h
    simp [clampIdx, h]
  · intro h
    have hlen : fs.length ≠ 0 := by simpa [List.length_eq_zero] using h
    unfold clampIdx
    rw [if_neg hlen]
    split
    · omega
    · omega

theorem sm_apply_filter_selOk (scr : SongManagerScreen) : SmOk scr.apply_filter := by
  unfold SmOk SongManagerScreen.apply_filter
  exact clampIdx_selOk _ _

theorem ss_apply_filter_selOk (scr : SongScreen) : SsOk scr.apply_filter := by
  unfold SsOk SongScreen.apply_filter
  exact clampIdx_selOk _ _

theorem sm_move_selection_selOk (scr : SongManagerScreen) (d : Int) (h : SmOk scr) :
    SmOk (scr.move_selection d) := by
  unfold SongManagerScreen.move_selection
  split
  · exact h
  · rename_i hne
    have hlen : scr.filtered_songs ≠ [] := by
      simpa [List.isEmpty_iff] using hne
    have hpos : 0 < scr.filtered_songs.length := List.length_pos.mpr hlen
    constructor
    · intro habs
      exact absurd habs hlen
    · intro _
      simp only
      split
      · split
        · omega
        · omega
      · split
        · omega
        · rename_i h1 h2
          omega

theorem sm_select_first_selOk (scr : SongManagerScreen) (h : SmOk scr) :
    SmOk scr.select_first := by
  unfold SongManagerScreen.select_first
  split
  · exact h
  · rename_i hne
    have hlen : scr.filtered_songs ≠ [] := by simpa [List.isEmpty_iff] using hne
    exact ⟨fun habs => absurd habs hlen, fun _ => List.length_pos.mpr hlen⟩

theorem sm_select_last_selOk (scr : SongManagerScreen) (h : SmOk scr) :
    SmOk scr.select_last := by
  unfold SongManagerScreen.select_last
  split
  · exact h
  · rename_i hne
    have hlen : scr.filtered_songs ≠ [] := by simpa [List.isEmpty_iff] using hne
    have hpos : 0 < scr.filtered_songs.length := List.length_pos.mpr hlen
    refine ⟨fun habs => absurd habs hlen, fun _ => ?_⟩
    show scr.filtered_songs.length - 1 < scr.filtered_songs.length
    omega

theorem ss_select_first_selOk (scr : SongScreen) (h : SsOk scr) :
    SsOk scr.select_first := by
  unfold SongScreen.select_first
  split
  · exact h
  · rename_i hne
    have hlen : scr.filtered_songs ≠ [] := by simpa [List.isEmpty_iff] using hne
    exact ⟨fun habs => absurd habs hlen, fun _ => List.length_pos.mpr hlen⟩

theorem ss_select_last_selOk (scr : SongScreen) (h : SsOk scr) :
    SsOk scr.select_last := by
  unfold SongScreen.select_last
  split
  · exact h
  · rename_i hne
    have hlen : scr.filtered_songs ≠ [] := by simpa [List.isEmpty_iff] using hne
    have hpos : 0 < scr.filtered_songs.length := List.length_pos.mpr hlen
    refine ⟨fun habs => absurd habs hlen, fun _ => ?_⟩
    show scr.filtered_songs.length - 1 < scr.filtered_songs.length
    omega

theorem sm_current_song_isSome (scr : SongManagerScreen) (h : SmOk scr)
    (hne : scr.filtered_songs ≠ []) : ∃ s, scr.current_song = some s := by
  have hlt := h.2 hne
  unfold SongManagerScreen.current_song
  rcases List.get?_eq_get hlt with he
  exact ⟨_, he⟩

theorem ss_current_song_isSome (scr : SongScreen) (h : SsOk scr)
    (hne : scr.filtered_songs ≠ []) : ∃ s, scr.current_song = some s := by
  have hlt := h.2 hne
  unfold SongScreen.current_song
  rcases List.get?_eq_get hlt with he
  exact ⟨_, he⟩

theorem ss_move_selection_selOk (scr : SongScreen) (d : Int) (h : SsOk scr) :
    SsOk (scr.move_selection d) := by
  unfold SongScreen.move_selection
  split
  · exact h
  · rename_i hne
    have hlen : scr.filtered_songs ≠ [] := by
      simpa [List.isEmpty_iff] using hne
    have hpos : 0 < scr.filtered_songs.length := List.length_pos.mpr hlen
    constructor
    · intro habs
      exact absurd habs hlen
    · intro _
      simp only
      split
      · split
        · omega
        · omega
      · split
        · omega
        · rename_i h1 h2
          omega

theorem sm_ensure_selOk (scr : SongManagerScreen) : SmOk scr.ensure_in_bounds := by
  unfold SmOk SongManagerScreen.ensure_in_bounds
  exact clampIdx_selOk _ _

theorem ss_ensure_selOk (scr : SongScreen) : SsOk scr.ensure_in_bounds := by
  unfold SsOk SongScreen.ensure_in_bounds
  exact clampIdx_selOk _ _

/-- C10: every operation of the song-manager and binder-detail song screens
preserves the selection invariant — a selection of 0 on an empty filtered
list, an in-bounds selection otherwise — and `current_song` returns `some`
whenever the filtered list is non-empty. -/
theorem selection_invariant (scr : SongManagerScreen) (scr2 : SongScreen)
    (songs : List Song) (b : Binder) (q : Option Str) (d : Int) :
    SmOk (SongManagerScreen.new songs)
    ∧ SmOk (scr.set_songs songs)
    ∧ SmOk (scr.set_filter q)
    ∧ SmOk (scr.toggle_show_no_link).2
    ∧ (SmOk scr → SmOk (scr.move_selection d))
    ∧ (SmOk scr → SmOk scr.select_first)
    ∧ (SmOk scr → SmOk scr.select_last)
    ∧ (SmOk scr → scr.filtered_songs ≠ [] → ∃ s, scr.current_song = some s)
    ∧ SsOk (SongScreen.new b songs)
    ∧ SsOk (scr2.set_songs songs)
    ∧ SsOk (scr2.set_filter q)
    ∧ (SsOk scr2 → SsOk (scr2.move_selection d))
    ∧ (SsOk scr2 → SsOk scr2.select_first)
    ∧ (SsOk scr2 → SsOk scr2.select_last)
    ∧ (SsOk scr2 → scr2.filtered_songs ≠ [] → ∃ s, scr2.current_song = some s) :=
  ⟨sm_ensure_selOk _, sm_apply_filter_selOk _, sm_apply_filter_selOk _,
   sm_apply_filter_selOk _, sm_move_selection_selOk scr d,
   sm_select_first_selOk scr, sm_select_last_selOk scr,
   sm_current_song_isSome scr,
   ss_ensure_selOk _, ss_apply_filter_selOk _, ss_apply_filter_selOk _,
   ss_move_selection_selOk scr2 d, ss_select_first_selOk scr2,
   ss_select_last_selOk scr2, ss_current_song_isSome scr2⟩

/-- Witness for `selection_invariant` at concrete screens. -/
theorem selection_invariant_witness :
    ∃ s, (SongManagerScreen.new [⟨1, lit "A", [], []⟩]).current_song = some s := by
  have h := selection_invariant (SongManagerScreen.new [⟨1, lit "A", [], []⟩])
    (SongScreen.new ⟨1, 1, lit "B"⟩ []) [⟨1, lit "A", [], []⟩] ⟨1, 1, lit "B"⟩ none 0
  exact h.2.2.2.2.2.2.2.1 h.1 (by decide)

/-! ## C5: double no-link toggle -/

/-- C5 counterexample: a consistent two-song manager screen (first song has
a link, second does not) with the second song selected; toggling the
no-link filter twice restores the filtered list but moves the selection
from 1 to 0, so the double toggle is not an identity on the selection. -/
theorem double_toggle_counterexample :
    ((((SongManagerScreen.new
        [⟨1, lit "A", [], lit "x"⟩, ⟨2, lit "B", [], []⟩]).move_selection 1
       ).toggle_show_no_link).2.toggle_show_no_link).2.selected = 0
    ∧ ((SongManagerScreen.new
        [⟨1, lit "A", [], lit "x"⟩, ⟨2, lit "B", [], []⟩]).move_selection 1).selected = 1
    ∧ ((((SongManagerScreen.new
        [⟨1, lit "A", [], lit "x"⟩, ⟨2, lit "B", [], []⟩]).move_selection 1
       ).toggle_show_no_link).2.toggle_show_no_link).2.filtered_songs =
      (((SongManagerScreen.new
        [⟨1, lit "A", [], lit "x"⟩, ⟨2, lit "B", [], []⟩]).move_selection 1)).filtered_songs := by
  decide

/-- C5 (amended): on a consistent song-manager state, toggling the no-link
filter twice restores the filtered list and the flag exactly, and the
resulting selection is the original one clamped through the intermediate
(no-link-filtered) list — equal to the original whenever that clamp does
not shrink it, but strictly smaller when the intermediate list is shorter
than the original selection. -/
theorem double_toggle_spec (scr : SongManagerScreen)
    (hcons : scr.apply_filter = scr) :
    ((scr.toggle_show_no_link).2.toggle_show_no_link).2.filtered_songs =
      scr.filtered_songs
    ∧ ((scr.toggle_show_no_link).2.toggle_show_no_link).2.show_only_no_link =
      scr.show_only_no_link
    ∧ ((scr.toggle_show_no_link).2.toggle_show_no_link).2.selected =
      clampIdx scr.filtered_songs.length
        (clampIdx (applyFilterList scr.songs scr.filter
          (!scr.show_only_no_link)).length scr.selected) := by
  have h1 : applyFilterList scr.songs scr.filter scr.show_only_no_link =
      scr.filtered_songs := congrArg SongManagerScreen.filtered_songs hcons
  refine ⟨?_, ?_, ?_⟩ <;>
    simp [SongManagerScreen.toggle_show_no_link, SongManagerScreen.apply_filter,
      Bool.not_not, h1]

/-- Witness for `double_toggle_spec` on a concrete consistent screen. -/
theorem double_toggle_spec_witness :
    (((SongManagerScreen.new [⟨1, lit "A", [], []⟩]).toggle_show_no_link
      ).2.toggle_show_no_link).2.filtered_songs =
    (SongManagerScreen.new [⟨1, lit "A", [], []⟩]).filtered_songs :=
  (double_toggle_spec (SongManagerScreen.new [⟨1, lit "A", [], []⟩])
    (by decide)).1

/-! ## C8: live search filtering -/

/-- C8: with a non-blank query, the filtered list of the song manager holds
exactly the cached songs whose title or composer contains the query
case-insensitively, further restricted to link-less songs when the no-link
filter is on; the binder-detail list filters the same way (no link
restriction). -/
theorem search_filter_spec (scr : SongManagerScreen) (scr2 : SongScreen)
    (q : Str) (hq : trimStr (toLowerStr q) ≠ []) :
    (∀ s, s ∈ (scr.set_filter (some q)).filtered_songs ↔
      s ∈ scr.songs
      ∧ (toLowerStr q <:+: toLowerStr s.title ∨ toLowerStr q <:+: toLowerStr s.composer)
      ∧ (scr.show_only_no_link = true → trimStr s.link = []))
    ∧ (∀ s, s ∈ (scr2.set_filter (some q)).filtered_songs ↔
      s ∈ scr2.songs
      ∧ (toLowerStr q <:+: toLowerStr s.title ∨ toLowerStr q <:+: toLowerStr s.composer)) := by
  have hq' : (trimStr (toLowerStr q)).isEmpty = false := by
    simpa [List.isEmpty_iff] using hq
  constructor
  · intro s
    simp only [SongManagerScreen.set_filter, SongManagerScreen.apply_filter,
      applyFilterList, hq', Bool.false_eq_true, if_false]
    cases hshow : scr.show_only_no_link with
    | false =>
      simp [List.mem_filter, containsSub_iff_infix, hshow]
    | true =>
      simp only [hshow, if_true, List.mem_filter, Bool.and_eq_true,
        Bool.or_eq_true, containsSub_iff_infix, List.isEmpty_iff,
        decide_eq_true_eq]
      tauto
  · intro s
    simp only [SongScreen.set_filter, SongScreen.apply_filter,
      applyFilterList, hq', Bool.false_eq_true, if_false]
    simp [List.mem_filter, containsSub_iff_infix]

/-- Witness for `search_filter_spec` on the spec's search scenario. -/
theorem search_filter_spec_witness :
    (⟨2, lit "Ave Verum", lit "Mozart", []⟩ : Song) ∈
      ((SongManagerScreen.new
        [⟨1, lit "Ave Maria", lit "Schubert", []⟩,
         ⟨2, lit "Ave Verum", lit "Mozart", []⟩]).set_filter
        (some (lit "mozart"))).filtered_songs := by
  have h := search_filter_spec
    (SongManagerScreen.new
      [⟨1, lit "Ave Maria", lit "Schubert", []⟩,
       ⟨2, lit "Ave Verum", lit "Mozart", []⟩])
    (SongScreen.new ⟨1, 1, lit "B"⟩ []) (lit "mozart") (by decide)
  refine (h.1 _).mpr ⟨by decide, Or.inr ?_, by decide⟩
  exact ⟨[], [], by decide⟩

/-! ## To-Print aggregates: lookup helpers and the report characterization -/

/-- Count of the running totals visible through the screen's id lookup:
the first entry with the given song id, or zero. -/
def neededFor (totals : List SongNeeded) (sid : Int) : Nat :=
  match totals.find? (fun e => e.song.id == sid) with
  | some e => e.needed
  | none => 0

/-- Whether the totals list has an entry for the given song id. -/
def hasEntry (totals : List SongNeeded) (sid : Int) : Bool :=
  (totals.find? (fun e => e.song.id == sid)).isSome

/-- Number of checked checkbox entries across all binder reports. -/
def checkedCount (reports : List BinderReport) : Nat :=
  (reports.map (fun r => r.songs.countP (fun m => m.checked))).sum

/-- Number of unchecked entries for one song id across all binder reports. -/
def uncheckedCountFor (reports : List BinderReport) (sid : Int) : Nat :=
  (reports.map (fun r => r.songs.countP (fun m => m.song.id == sid && !m.checked))).sum

/-- Number of entries (checked or not) for one song id across all reports. -/
def presentCount (reports : List BinderReport) (sid : Int) : Nat :=
  (reports.map (fun r => r.songs.countP (fun m => m.song.id == sid))).sum

/-- The declarative missing-song list of one binder: the director songs
whose ids are not among the binder's linked ids, each initially unchecked. -/
def missingFor (directorSongs : List Song) (linkedIds : List Int) : List MissingSong :=
  (directorSongs.filter (fun s => !(linkedIds.contains s.id))).map
    (fun s => { song := s, checked := false })

/-- The declarative report of one binder: `none` when it misses nothing. -/
def reportSpec (songsFor : Int → List Song) (ds : List Song) (b : Binder) :
    Option BinderReport :=
  let missing := missingFor ds ((songsFor b.id).map (fun s => s.id))
  if missing.isEmpty then none
  else some { binder_id := b.id, binder_number := b.number,
              binder_label := b.label, songs := missing }

theorem collectMissing_fst (ds : List Song) (linked : List Int)
    (totals : List SongNeeded) :
    (collectMissing ds linked totals).1 = missingFor ds linked := by
  induction ds generalizing totals with
  | nil => simp [collectMissing, missingFor]
  | cons s rest ih =>
    by_cases h : s.id ∈ linked
    · simp [collectMissing, missingFor, h, ih]
    · simp [collectMissing, missingFor, h, ih]

theorem neededFor_bump (totals : List SongNeeded) (s : Song) (sid : Int) :
    neededFor (bumpNeeded totals s) sid =
      neededFor totals sid + (if s.id = sid then 1 else 0) := by
  induction totals with
  | nil =>
    by_cases h : s.id = sid
    · simp [bumpNeeded, neededFor, List.find?, h]
    · have hb : (s.id == sid) = false := by simp [h]
      simp [bumpNeeded, neededFor, List.find?, hb, h]
  | cons e rest ih =>
    by_cases he : e.song.id = s.id
    · by_cases hs : s.id = sid
      · have hb : (e.song.id == sid) = true := by simp [he, hs]
        simp [bumpNeeded, neededFor, he, hs, List.find?, hb]
      · have hb : (e.song.id == sid) = false := by simp [he, hs]
        have hb2 : (s.id == sid) = false := by simp [hs]
        simp [bumpNeeded, neededFor, he, hs, List.find?, hb, hb2]
    · by_cases h1 : e.song.id = sid
      · have hs : ¬(s.id = sid) := fun h => he (h1.trans h.symm)
        have hb : (e.song.id == sid) = true := by simp [h1]
        simp [bumpNeeded, neededFor, he, List.find?, hb, hs]
      · have hb : (e.song.id == sid) = false := by simp [h1]
        simp only [bumpNeeded, if_neg he, neededFor, List.find?, hb,
          Bool.false_eq_true, if_false] at ih ⊢
        exact ih

theorem neededFor_collect (ds : List Song) (linked : List Int)
    (totals : List SongNeeded) (sid : Int) :
    neededFor (collectMissing ds linked totals).2 sid =
      neededFor totals sid
        + ds.countP (fun s => s.id == sid && !(linked.contains s.id)) := by
  induction ds generalizing totals with
  | nil => simp [collectMissing]
  | cons s rest ih =>
    by_cases h : s.id ∈ linked
    · simp [collectMissing, h, ih, List.countP_cons]
    · by_cases hs : s.id = sid
      · have h' : sid ∉ linked := hs ▸ h
        simp [collectMissing, h, h', ih, List.countP_cons, neededFor_bump, hs]
        omega
      · simp [collectMissing, h, ih, List.countP_cons, neededFor_bump, hs]

theorem buildReports_fst (songsFor : Int → List Song) (ds : List Song)
    (bs : List Binder) (totals : List SongNeeded) :
    (buildReports songsFor ds bs totals).1 = bs.filterMap (reportSpec songsFor ds) := by
  induction bs generalizing totals with
  | nil => simp [buildReports]
  | cons b rest ih =>
    simp only [buildReports, collectMissing_fst, List.filterMap_cons, reportSpec]
    by_cases h : (missingFor ds ((songsFor b.id).map (fun s => s.id))).isEmpty = true
    · simp [h, ih]
    · have h' : (missingFor ds ((songsFor b.id).map (fun s => s.id))).isEmpty = false := by
        revert h
        cases (missingFor ds ((songsFor b.id).map (fun s => s.id))).isEmpty <;> simp
      simp [h', ih]

theorem neededFor_buildReports (songsFor : Int → List Song) (ds : List Song)
    (bs : List Binder) (totals : List SongNeeded) (sid : Int) :
    neededFor (buildReports songsFor ds bs totals).2 sid =
      neededFor totals sid
        + (bs.map (fun b => ds.countP (fun s =>
            s.id == sid && !(((songsFor b.id).map (fun t => t.id)).contains s.id)))).sum := by
  induction bs generalizing totals with
  | nil => simp [buildReports]
  | cons b rest ih =>
    simp only [buildReports]
    by_cases h : (collectMissing ds ((songsFor b.id).map (fun s => s.id)) totals).1.isEmpty = true
    · simp only [h, if_true, ih, neededFor_collect, List.map_cons, List.sum_cons]
      omega
    · simp only [h, Bool.false_eq_true, if_false, ih, neededFor_collect,
        List.map_cons, List.sum_cons]
      omega

theorem countP_eq_indicator_of_distinct (ds : List Song) (sid : Int)
    (f : Song → Bool) (hf : ∀ s, f s = true → s.id = sid)
    (hd : ds.Pairwise (fun a b => a.id ≠ b.id)) :
    ds.countP f = if ds.any f then 1 else 0 := by
  induction ds with
  | nil => simp
  | cons s rest ih =>
    rw [List.pairwise_cons] at hd
    by_cases h : f s = true
    · have hzero : rest.countP f = 0 := by
        rw [List.countP_eq_zero]
        intro a ha hfa
        exact hd.1 a ha ((hf s h).trans (hf a hfa).symm)
      simp [List.countP_cons, List.any_cons, h, hzero]
    · have h' : f s = false := by
        revert h
        cases f s <;> simp
      simp [List.countP_cons, List.any_cons, h', ih hd.2]

theorem sum_map_indicator (l : List Binder) (p : Binder → Bool) :
    (l.map (fun b => if p b then 1 else 0)).sum = l.countP p := by
  induction l with
  | nil => simp
  | cons b rest ih =>
    by_cases h : p b = true
    · simp [List.countP_cons, h, ih]
      omega
    · simp [List.countP_cons, h, ih]

theorem missingFor_unchecked (ds : List Song) (linked : List Int) :
    ∀ m ∈ missingFor ds linked, m.checked = false := by
  intro m hm
  unfold missingFor at hm
  obtain ⟨s, _, hs⟩ := List.mem_map.mp hm
  rw [← hs]

/-! ## Field stability of the To-Print row refreshers -/

theorem refresh_binder_rows_fields (scr : ToPrintScreen) :
    (scr.refresh_binder_rows).binder_reports = scr.binder_reports
    ∧ (scr.refresh_binder_rows).song_totals = scr.song_totals
    ∧ (scr.refresh_binder_rows).pending_changes = scr.pending_changes
    ∧ (scr.refresh_binder_rows).mode = scr.mode
    ∧ (scr.refresh_binder_rows).director_exists = scr.director_exists
    ∧ (scr.refresh_binder_rows).song_rows = scr.song_rows := by
  refine ⟨?_, ?_, ?_, ?_, ?_, ?_⟩ <;>
  · unfold ToPrintScreen.refresh_binder_rows ToPrintScreen.update_scroll
    dsimp only
    repeat' split
    all_goals rfl

theorem refresh_song_rows_fields (scr : ToPrintScreen) :
    (scr.refresh_song_rows).binder_reports = scr.binder_reports
    ∧ (scr.refresh_song_rows).song_totals = scr.song_totals
    ∧ (scr.refresh_song_rows).pending_changes = scr.pending_changes
    ∧ (scr.refresh_song_rows).mode = scr.mode
    ∧ (scr.refresh_song_rows).director_exists = scr.director_exists
    ∧ (scr.refresh_song_rows).binder_rows = scr.binder_rows := by
  refine ⟨?_, ?_, ?_, ?_, ?_, ?_⟩ <;>
  · unfold ToPrintScreen.refresh_song_rows ToPrintScreen.update_scroll
    dsimp only
    repeat' split
    all_goals rfl

theorem with_data_fields (reports : List BinderReport) (totals : List SongNeeded) :
    (ToPrintScreen.with_data reports totals).binder_reports = reports
    ∧ (ToPrintScreen.with_data reports totals).song_totals = totals
    ∧ (ToPrintScreen.with_data reports totals).pending_changes = 0
    ∧ (ToPrintScreen.with_data reports totals).mode = ToPrintMode.ByBinder
    ∧ (ToPrintScreen.with_data reports totals).director_exists = true := by
  unfold ToPrintScreen.with_data
  have h1 := refresh_song_rows_fields
    (ToPrintScreen.refresh_binder_rows
      { director_exists := true, mode := ToPrintMode.ByBinder,
        binder_reports := reports, binder_rows := [],
        song_totals := totals, song_rows := [],
        scroll := 0, selected_index := 0, pending_changes := 0 })
  have h2 := refresh_binder_rows_fields
    ({ director_exists := true, mode := ToPrintMode.ByBinder,
       binder_reports := reports, binder_rows := [],
       song_totals := totals, song_rows := [],
       scroll := 0, selected_index := 0, pending_changes := 0 } : ToPrintScreen)
  refine ⟨?_, ?_, ?_, ?_, ?_⟩
  · rw [h1.1, h2.1]
  · rw [h1.2.1, h2.2.1]
  · rw [h1.2.2.1, h2.2.2.1]
  · rw [h1.2.2.2.1, h2.2.2.2.1]
  · rw [h1.2.2.2.2.1, h2.2.2.2.2.1]

/-! ## C1: opening the To-Print view -/

/-- C1: with a director binder (number 0) in the cached list, opening the
To-Print view yields, for every other cached binder, exactly the director
songs missing from that binder (each unchecked), omits binders that miss
nothing, and initial per-song totals equal to the number of other binders
missing that song (director song ids being distinct, as database keys are). -/
theorem open_to_print_view_spec (binders : List Binder) (songsFor : Int → List Song)
    (director : Binder)
    (hdir : binders.find? (fun b => b.number == 0) = some director)
    (hdistinct : (songsFor director.id).Pairwise (fun a b => a.id ≠ b.id)) :
    (open_to_print_view binders songsFor).binder_reports =
      (binders.filter (fun b => b.id != director.id)).filterMap
        (reportSpec songsFor (songsFor director.id))
    ∧ (∀ r ∈ (open_to_print_view binders songsFor).binder_reports,
        ∀ m ∈ r.songs, m.checked = false)
    ∧ (∀ sid, neededFor (open_to_print_view binders songsFor).song_totals sid =
        (binders.filter (fun b => b.id != director.id)).countP
          (fun b => (songsFor director.id).any (fun s =>
            s.id == sid && !(((songsFor b.id).map (fun t => t.id)).contains s.id)))) := by
  have hopen : open_to_print_view binders songsFor =
      ToPrintScreen.with_data
        (buildReports songsFor (songsFor director.id)
          (binders.filter (fun b => b.id != director.id)) []).1
        (buildReports songsFor (songsFor director.id)
          (binders.filter (fun b => b.id != director.id)) []).2 := by
    unfold open_to_print_view
    rw [hdir]
  have hw := with_data_fields
    (buildReports songsFor (songsFor director.id)
      (binders.filter (fun b => b.id != director.id)) []).1
    (buildReports songsFor (songsFor director.id)
      (binders.filter (fun b => b.id != director.id)) []).2
  have hrep : (open_to_print_view binders songsFor).binder_reports =
      (binders.filter (fun b => b.id != director.id)).filterMap
        (reportSpec songsFor (songsFor director.id)) := by
    rw [hopen, hw.1, buildReports_fst]
  refine ⟨hrep, ?_, ?_⟩
  · intro r hr m hm
    rw [hrep] at hr
    obtain ⟨b, _, hb⟩ := List.mem_filterMap.mp hr
    unfold reportSpec at hb
    by_cases hcase :
        (missingFor (songsFor director.id)
          ((songsFor b.id).map (fun s => s.id))).isEmpty = true
    · simp [hcase] at hb
    · simp only [hcase, Bool.false_eq_true, if_false, Option.some.injEq] at hb
      have hsongs : r.songs =
          missingFor (songsFor director.id) ((songsFor b.id).map (fun s => s.id)) := by
        rw [← hb]
      rw [hsongs] at hm
      exact missingFor_unchecked _ _ m hm
  · intro sid
    rw [hopen, hw.2.1, neededFor_buildReports]
    have hzero : neededFor [] sid = 0 := rfl
    rw [hzero, Nat.zero_add]
    have hconv : ∀ b ∈ binders.filter (fun b => b.id != director.id),
        (songsFor director.id).countP (fun s =>
          s.id == sid && !(((songsFor b.id).map (fun t => t.id)).contains s.id)) =
        if (songsFor director.id).any (fun s =>
          s.id == sid && !(((songsFor b.id).map (fun t => t.id)).contains s.id))
        then 1 else 0 := by
      intro b _
      refine countP_eq_indicator_of_distinct _ sid _ ?_ hdistinct
      intro s hs
      have := (Bool.and_eq_true _ _).mp hs
      exact beq_iff_eq.mp this.1
    rw [List.map_congr_left hconv, sum_map_indicator]

/-- Concrete binder list of the spec's to-print scenario. -/
def cBinders : List Binder :=
  [⟨1, 1, lit "A"⟩, ⟨2, 2, lit "B"⟩, ⟨3, 0, lit "Director"⟩]

/-- Concrete per-binder song lists of the spec's to-print scenario: binder 1
is linked to song 10 only, binder 2 to neither director song. -/
def cSongsFor : Int → List Song := fun bid =>
  if bid = 3 then
    [⟨10, lit "Amazing Grace", [], []⟩, ⟨20, lit "Silent Night", [], []⟩]
  else if bid = 1 then [⟨10, lit "Amazing Grace", [], []⟩]
  else []

/-- Witness for `open_to_print_view_spec` on the spec scenario: song 10 is
needed once, song 20 twice. -/
theorem open_to_print_view_spec_witness :
    neededFor (open_to_print_view cBinders cSongsFor).song_totals 10 = 1
    ∧ neededFor (open_to_print_view cBinders cSongsFor).song_totals 20 = 2 := by
  have h := open_to_print_view_spec cBinders cSongsFor ⟨3, 0, lit "Director"⟩
    (by decide) (by decide)
  constructor
  · rw [h.2.2 10]
    decide
  · rw [h.2.2 20]
    decide

/-! ## Effect of one checkbox flip on the counts -/

theorem modifyAt_countP (l : List α) (i : Nat) (g : α → α) (p : α → Bool)
    (x : α) (hx : l.get? i = some x) :
    (ToPrintScreen.modifyAt l i g).countP p + (if p x then 1 else 0) =
      l.countP p + (if p (g x) then 1 else 0) := by
  induction l generalizing i with
  | nil => simp at hx
  | cons a rest ih =>
    cases i with
    | zero =>
      rw [List.get?_cons_zero, Option.some.injEq] at hx
      subst hx
      simp only [ToPrintScreen.modifyAt, List.countP_cons]
      by_cases h1 : p a = true <;> by_cases h2 : p (g a) = true <;>
        simp [h1, h2]
    | succ i =>
      rw [List.get?_cons_succ] at hx
      simp only [ToPrintScreen.modifyAt, List.countP_cons]
      have := ih i hx
      by_cases h1 : p a = true <;> simp [h1] <;> omega

theorem modifyAt_map_sum (l : List α) (i : Nat) (g : α → α) (h : α → Nat)
    (x : α) (hx : l.get? i = some x) :
    ((ToPrintScreen.modifyAt l i g).map h).sum + h x = (l.map h).sum + h (g x) := by
  induction l generalizing i with
  | nil => simp at hx
  | cons a rest ih =>
    cases i with
    | zero =>
      rw [List.get?_cons_zero, Option.some.injEq] at hx
      subst hx
      simp only [ToPrintScreen.modifyAt, List.map_cons, List.sum_cons]
      omega
    | succ i =>
      rw [List.get?_cons_succ] at hx
      simp only [ToPrintScreen.modifyAt, List.map_cons, List.sum_cons]
      have := ih i hx
      omega

theorem get?_le_map_sum (l : List α) (i : Nat) (h : α → Nat) (x : α)
    (hx : l.get? i = some x) : h x ≤ (l.map h).sum := by
  induction l generalizing i with
  | nil => simp at hx
  | cons a rest ih =>
    cases i with
    | zero =>
      rw [List.get?_cons_zero, Option.some.injEq] at hx
      subst hx
      simp only [List.map_cons, List.sum_cons]
      omega
    | succ i =>
      rw [List.get?_cons_succ] at hx
      have := ih i hx
      simp only [List.map_cons, List.sum_cons]
      omega

theorem get?_countP_pos (l : List α) (i : Nat) (p : α → Bool) (x : α)
    (hx : l.get? i = some x) (hp : p x = true) : 0 < l.countP p := by
  induction l generalizing i with
  | nil => simp at hx
  | cons a rest ih =>
    cases i with
    | zero =>
      rw [List.get?_cons_zero, Option.some.injEq] at hx
      subst hx
      simp [List.countP_cons, hp]
    | succ i =>
      have := ih i hx
      simp only [List.countP_cons]
      omega

/-! ## Effect of `adjustTotals` on the totals lookups -/

theorem adjustTotals_neededFor_self (totals : List SongNeeded) (sid δ : Int)
    (he : hasEntry totals sid = true) :
    neededFor (ToPrintScreen.adjustTotals totals sid δ) sid =
      ((neededFor totals sid : Int) + δ).toNat := by
  induction totals with
  | nil => simp [hasEntry] at he
  | cons e rest ih =>
    by_cases h : e.song.id = sid
    · have hb : (e.song.id == sid) = true := by simp [h]
      simp [ToPrintScreen.adjustTotals, neededFor, List.find?, h, hb]
    · have hb : (e.song.id == sid) = false := by simp [h]
      have he' : hasEntry rest sid = true := by
        simpa [hasEntry, List.find?, hb] using he
      simpa [ToPrintScreen.adjustTotals, neededFor, List.find?, h, hb]
        using ih he'

theorem adjustTotals_neededFor_other (totals : List SongNeeded) (sid δ sid2 : Int)
    (hne : sid2 ≠ sid) :
    neededFor (ToPrintScreen.adjustTotals totals sid δ) sid2 =
      neededFor totals sid2 := by
  induction totals with
  | nil => simp [ToPrintScreen.adjustTotals]
  | cons e rest ih =>
    by_cases h : e.song.id = sid
    · have hb : (sid == sid2) = false := by
        simp
        omega
      simp [ToPrintScreen.adjustTotals, neededFor, List.find?, h, hb]
    · by_cases h2 : e.song.id = sid2
      · have hb : (e.song.id == sid2) = true := by simp [h2]
        simp [ToPrintScreen.adjustTotals, neededFor, List.find?, h, hb]
      · have hb : (e.song.id == sid2) = false := by simp [h2]
        simpa [ToPrintScreen.adjustTotals, neededFor, List.find?, h, hb] using ih

theorem adjustTotals_hasEntry (totals : List SongNeeded) (sid δ sid2 : Int) :
    hasEntry (ToPrintScreen.adjustTotals totals sid δ) sid2 =
      hasEntry totals sid2 := by
  induction totals with
  | nil => simp [ToPrintScreen.adjustTotals]
  | cons e rest ih =>
    by_cases h : e.song.id = sid
    · by_cases h2 : e.song.id = sid2
      · have hb : (sid == sid2) = true := by
          rw [← h, h2]
          simp
        simp [ToPrintScreen.adjustTotals, hasEntry, List.find?, h, hb]
      · have hb : (sid == sid2) = false := by
          rw [← h]
          simp [h2]
        simp [ToPrintScreen.adjustTotals, hasEntry, List.find?, h, hb]
    · by_cases h2 : e.song.id = sid2
      · have hb : (e.song.id == sid2) = true := by simp [h2]
        simp [ToPrintScreen.adjustTotals, hasEntry, List.find?, h, hb]
      · have hb : (e.song.id == sid2) = false := by simp [h2]
        simpa [ToPrintScreen.adjustTotals, hasEntry, List.find?, h, hb] using ih

theorem neededFor_of_not_hasEntry (totals : List SongNeeded) (sid : Int)
    (h : hasEntry totals sid = false) : neededFor totals sid = 0 := by
  unfold hasEntry at h
  unfold neededFor
  cases hfind : totals.find? (fun e => e.song.id == sid) with
  | none => rfl
  | some e =>
    rw [hfind] at h
    simp at h

/-! ## Field stability of the navigation operations -/

theorem update_scroll_core_fields (scr : ToPrintScreen) :
    (scr.update_scroll).binder_reports = scr.binder_reports
    ∧ (scr.update_scroll).song_totals = scr.song_totals
    ∧ (scr.update_scroll).pending_changes = scr.pending_changes := by
  refine ⟨?_, ?_, ?_⟩ <;>
  · unfold ToPrintScreen.update_scroll
    dsimp only
    repeat' split
    all_goals rfl

theorem toggle_mode_core_fields (scr : ToPrintScreen) :
    (scr.toggle_mode).binder_reports = scr.binder_reports
    ∧ (scr.toggle_mode).song_totals = scr.song_totals
    ∧ (scr.toggle_mode).pending_changes = scr.pending_changes := by
  refine ⟨?_, ?_, ?_⟩ <;>
  · unfold ToPrintScreen.toggle_mode ToPrintScreen.update_scroll
    dsimp only
    repeat' split
    all_goals rfl

theorem move_selection_core_fields (scr : ToPrintScreen) (d : Int) :
    (scr.move_selection d).binder_reports = scr.binder_reports
    ∧ (scr.move_selection d).song_totals = scr.song_totals
    ∧ (scr.move_selection d).pending_changes = scr.pending_changes := by
  refine ⟨?_, ?_, ?_⟩ <;>
  · unfold ToPrintScreen.move_selection ToPrintScreen.update_scroll
    dsimp only
    repeat' split
    all_goals rfl

theorem select_first_core_fields (scr : ToPrintScreen) :
    (scr.select_first).binder_reports = scr.binder_reports
    ∧ (scr.select_first).song_totals = scr.song_totals
    ∧ (scr.select_first).pending_changes = scr.pending_changes := by
  refine ⟨?_, ?_, ?_⟩ <;>
  · unfold ToPrintScreen.select_first ToPrintScreen.update_scroll
    dsimp only
    repeat' split
    all_goals rfl

theorem select_last_core_fields (scr : ToPrintScreen) :
    (scr.select_last).binder_reports = scr.binder_reports
    ∧ (scr.select_last).song_totals = scr.song_totals
    ∧ (scr.select_last).pending_changes = scr.pending_changes := by
  refine ⟨?_, ?_, ?_⟩ <;>
  · unfold ToPrintScreen.select_last ToPrintScreen.update_scroll
    dsimp only
    repeat' split
    all_goals rfl

theorem adjust_song_needed_fields (scr : ToPrintScreen) (sid δ : Int) :
    (scr.adjust_song_needed sid δ).binder_reports = scr.binder_reports
    ∧ (scr.adjust_song_needed sid δ).song_totals =
        ToPrintScreen.adjustTotals scr.song_totals sid δ
    ∧ (scr.adjust_song_needed sid δ).pending_changes = scr.pending_changes := by
  unfold ToPrintScreen.adjust_song_needed
  have h := refresh_song_rows_fields
    { scr with song_totals := ToPrintScreen.adjustTotals scr.song_totals sid δ }
  exact ⟨h.1, h.2.1, h.2.2.1⟩

/-! ## Characterizing `toggle_current` -/

/-- The checkbox flip applied to one missing-song entry. -/
def flipChecked (m : MissingSong) : MissingSong := { m with checked := !m.checked }

/-- The report update performed by `toggle_current` at indices `(bi, si)`. -/
def flipReportAt (reports : List BinderReport) (bi si : Nat) : List BinderReport :=
  ToPrintScreen.modifyAt reports bi (fun r =>
    { r with songs := ToPrintScreen.modifyAt r.songs si flipChecked })

theorem adjust_refresh_fields (s : ToPrintScreen) (sid δ : Int) :
    ((s.adjust_song_needed sid δ).refresh_binder_rows).binder_reports =
      s.binder_reports
    ∧ ((s.adjust_song_needed sid δ).refresh_binder_rows).song_totals =
        ToPrintScreen.adjustTotals s.song_totals sid δ
    ∧ ((s.adjust_song_needed sid δ).refresh_binder_rows).pending_changes =
        s.pending_changes := by
  have ha := adjust_song_needed_fields s sid δ
  have hr := refresh_binder_rows_fields (s.adjust_song_needed sid δ)
  exact ⟨hr.1.trans ha.1, (hr.2.1).trans ha.2.1, (hr.2.2.1).trans ha.2.2⟩

theorem toggle_current_flip (scr : ToPrintScreen) (row : BinderRow) (bi si : Nat)
    (e : MissingSong)
    (hdir : scr.director_exists = true) (hmode : scr.mode = ToPrintMode.ByBinder)
    (hrow : scr.binder_rows.get? scr.selected_index = some row)
    (hkind : row.kind = BinderRowKind.Song)
    (hbi : row.binder_index = some bi) (hsi : row.song_index = some si)
    (he : (scr.binder_reports.get? bi).bind (fun r => r.songs.get? si) = some e) :
    (scr.toggle_current).1 = some (!e.checked)
    ∧ (scr.toggle_current).2.binder_reports = flipReportAt scr.binder_reports bi si
    ∧ (scr.toggle_current).2.song_totals =
        ToPrintScreen.adjustTotals scr.song_totals e.song.id
          (if e.checked then 1 else -1)
    ∧ (scr.toggle_current).2.pending_changes =
        (if e.checked then scr.pending_changes - 1 else scr.pending_changes + 1) := by
  unfold ToPrintScreen.toggle_current
  simp only [hdir, hmode, hrow, hkind, hbi, hsi, he, Bool.not_true,
    Bool.false_or, ne_eq, not_true_eq_false]
  cases hec : e.checked with
  | false =>
    simp only [hec, Bool.not_false, if_true, Bool.false_eq_true, if_false,
      eq_self_iff_true]
    exact ⟨rfl, (adjust_refresh_fields _ _ _).1.trans rfl,
      (adjust_refresh_fields _ _ _).2.1.trans rfl,
      (adjust_refresh_fields _ _ _).2.2.trans rfl⟩
  | true =>
    simp only [hec, Bool.not_true, if_true, Bool.false_eq_true, if_false,
      eq_self_iff_true]
    exact ⟨rfl, (adjust_refresh_fields _ _ _).1.trans rfl,
      (adjust_refresh_fields _ _ _).2.1.trans rfl,
      (adjust_refresh_fields _ _ _).2.2.trans rfl⟩

/-- Inversion of `toggle_current`: it either leaves the screen untouched and
returns `none`, or it is looking at a genuine song row. -/
theorem toggle_current_cases (scr : ToPrintScreen) :
    scr.toggle_current = (none, scr)
    ∨ ∃ row bi si e,
        scr.director_exists = true ∧ scr.mode = ToPrintMode.ByBinder
        ∧ scr.binder_rows.get? scr.selected_index = some row
        ∧ row.kind = BinderRowKind.Song
        ∧ row.binder_index = some bi ∧ row.song_index = some si
        ∧ (scr.binder_reports.get? bi).bind (fun r => r.songs.get? si) = some e := by
  by_cases hdir : scr.director_exists = true
  · by_cases hmode : scr.mode = ToPrintMode.ByBinder
    · cases hrow : scr.binder_rows.get? scr.selected_index with
      | none =>
        left
        have hrow' : scr.binder_rows[scr.selected_index]? = none := by
          simpa [List.get?_eq_getElem?] using hrow
        unfold ToPrintScreen.toggle_current
        simp [hdir, hmode, hrow']
      | some row =>
        have hrow' : scr.binder_rows[scr.selected_index]? = some row := by
          simpa [List.get?_eq_getElem?] using hrow
        by_cases hkind : row.kind = BinderRowKind.Song
        · cases hbi : row.binder_index with
          | none =>
            left
            unfold ToPrintScreen.toggle_current
            simp [hdir, hmode, hrow', hkind, hbi]
          | some bi =>
            cases hsi : row.song_index with
            | none =>
              left
              unfold ToPrintScreen.toggle_current
              simp [hdir, hmode, hrow', hkind, hbi, hsi]
            | some si =>
              cases he : (scr.binder_reports.get? bi).bind (fun r => r.songs.get? si) with
              | none =>
                left
                have he' : scr.binder_reports[bi]?.bind (fun r => r.songs[si]?) = none := by
                  simpa [List.get?_eq_getElem?] using he
                unfold ToPrintScreen.toggle_current
                simp [hdir, hmode, hrow', hkind, hbi, hsi, he']
              | some e =>
                right
                exact ⟨row, bi, si, e, hdir, hmode, rfl, hkind, hbi, hsi, he⟩
        · left
          unfold ToPrintScreen.toggle_current
          simp [hdir, hmode, hrow', hkind]
    · left
      unfold ToPrintScreen.toggle_current
      simp [hmode]
  · left
    unfold ToPrintScreen.toggle_current
    have hd : scr.director_exists = false := by
      revert hdir
      cases scr.director_exists <;> simp
    simp [hd]

/-! ## The bookkeeping invariant of the To-Print screen -/

theorem flipReportAt_countP (reports : List BinderReport) (bi si : Nat)
    (r : BinderReport) (e : MissingSong) (p : MissingSong → Bool)
    (hr : reports.get? bi = some r) (hm : r.songs.get? si = some e) :
    ((flipReportAt reports bi si).map (fun t => t.songs.countP p)).sum
      + (if p e then 1 else 0) =
    (reports.map (fun t => t.songs.countP p)).sum
      + (if p (flipChecked e) then 1 else 0) := by
  have h1 := modifyAt_map_sum reports bi
    (fun t => { t with songs := ToPrintScreen.modifyAt t.songs si flipChecked })
    (fun t => t.songs.countP p) r hr
  have h2 := modifyAt_countP r.songs si flipChecked p e hm
  simp only at h1
  unfold flipReportAt
  omega

/-- The pending-count and needed-count bookkeeping invariant that
`with_data` establishes and every screen operation preserves. -/
structure ToPrintInv (scr : ToPrintScreen) : Prop where
  pending_eq : scr.pending_changes = checkedCount scr.binder_reports
  needed_eq : ∀ sid, neededFor scr.song_totals sid =
    uncheckedCountFor scr.binder_reports sid
  present_ex : ∀ sid, 0 < presentCount scr.binder_reports sid →
    hasEntry scr.song_totals sid = true

theorem inv_transfer {a b : ToPrintScreen}
    (h1 : b.binder_reports = a.binder_reports)
    (h2 : b.song_totals = a.song_totals)
    (h3 : b.pending_changes = a.pending_changes)
    (hInv : ToPrintInv a) : ToPrintInv b := by
  constructor
  · rw [h1, h3, hInv.pending_eq]
  · intro sid
    rw [h1, h2, hInv.needed_eq]
  · intro sid hp
    rw [h1] at hp
    rw [h2]
    exact hInv.present_ex sid hp

theorem checkedCount_eq_zero (reports : List BinderReport)
    (hq : ∀ r ∈ reports, ∀ m ∈ r.songs, m.checked = false) :
    checkedCount reports = 0 := by
  unfold checkedCount
  induction reports with
  | nil => rfl
  | cons r rest ih =>
    simp only [List.map_cons, List.sum_cons]
    have h1 : r.songs.countP (fun m => m.checked) = 0 := by
      rw [List.countP_eq_zero]
      intro m hm
      simp [hq r (by simp) m hm]
    rw [h1, ih (fun t ht m hm => hq t (by simp [ht]) m hm)]

theorem unchecked_eq_present (reports : List BinderReport) (sid : Int)
    (hq : ∀ r ∈ reports, ∀ m ∈ r.songs, m.checked = false) :
    uncheckedCountFor reports sid = presentCount reports sid := by
  unfold uncheckedCountFor presentCount
  induction reports with
  | nil => rfl
  | cons r rest ih =>
    simp only [List.map_cons, List.sum_cons]
    have h1 : r.songs.countP (fun m => m.song.id == sid && !m.checked) =
        r.songs.countP (fun m => m.song.id == sid) := by
      apply List.countP_congr
      intro m hm
      simp [hq r (by simp) m hm]
    rw [h1, ih (fun t ht m hm => hq t (by simp [ht]) m hm)]

theorem with_data_inv (reports : List BinderReport) (totals : List SongNeeded)
    (hq : ∀ r ∈ reports, ∀ m ∈ r.songs, m.checked = false)
    (ht : ∀ sid, neededFor totals sid = uncheckedCountFor reports sid) :
    ToPrintInv (ToPrintScreen.with_data reports totals) := by
  have hw := with_data_fields reports totals
  constructor
  · rw [hw.1, hw.2.2.1, checkedCount_eq_zero reports hq]
  · intro sid
    rw [hw.1, hw.2.1, ht]
  · intro sid hp
    rw [hw.1] at hp
    rw [hw.2.1]
    by_contra hne
    have hfalse : hasEntry totals sid = false := by
      revert hne
      cases hasEntry totals sid <;> simp
    have h0 := neededFor_of_not_hasEntry totals sid hfalse
    rw [ht sid, unchecked_eq_present reports sid hq] at h0
    omega

theorem toggle_current_inv (scr : ToPrintScreen) (hInv : ToPrintInv scr) :
    ToPrintInv (scr.toggle_current).2 := by
  rcases toggle_current_cases scr with hnone |
    ⟨row, bi, si, e, hdir, hmode, hrow, hkind, hbi, hsi, he⟩
  · rw [hnone]
    exact hInv
  · obtain ⟨r, hr, hm⟩ := Option.bind_eq_some.mp he
    have htc := toggle_current_flip scr row bi si e hdir hmode hrow hkind hbi hsi he
    have hcc := flipReportAt_countP scr.binder_reports bi si r e
      (fun m => m.checked) hr hm
    simp only [flipChecked] at hcc
    have hpres : ∀ sid, presentCount (flipReportAt scr.binder_reports bi si) sid =
        presentCount scr.binder_reports sid := by
      intro sid
      have h := flipReportAt_countP scr.binder_reports bi si r e
        (fun m => m.song.id == sid) hr hm
      simp only [flipChecked] at h
      unfold presentCount
      omega
    have hprespos : 0 < presentCount scr.binder_reports e.song.id := by
      have h1 : 0 < r.songs.countP (fun m => m.song.id == e.song.id) :=
        get?_countP_pos r.songs si _ e hm (by simp)
      have h2 := get?_le_map_sum scr.binder_reports bi
        (fun t => t.songs.countP (fun m => m.song.id == e.song.id)) r hr
      simp only at h2
      unfold presentCount
      omega
    have hentry : hasEntry scr.song_totals e.song.id = true :=
      hInv.present_ex e.song.id hprespos
    have hunch_other : ∀ sid, sid ≠ e.song.id →
        uncheckedCountFor (flipReportAt scr.binder_reports bi si) sid =
          uncheckedCountFor scr.binder_reports sid := by
      intro sid hne
      have h := flipReportAt_countP scr.binder_reports bi si r e
        (fun m => m.song.id == sid && !m.checked) hr hm
      have hb : (e.song.id == sid) = false := by
        simp
        omega
      simp only [flipChecked, hb, Bool.false_and, Bool.false_eq_true,
        if_false] at h
      unfold uncheckedCountFor
      omega
    have hunch_self := flipReportAt_countP scr.binder_reports bi si r e
      (fun m => m.song.id == e.song.id && !m.checked) hr hm
    have hbe : (e.song.id == e.song.id) = true := by simp
    simp only [flipChecked, hbe, Bool.true_and, Bool.not_not] at hunch_self
    cases hec : e.checked with
    | false =>
      simp only [hec, Bool.not_false, if_true, Bool.false_eq_true, if_false] at htc hcc hunch_self
      constructor
      · rw [htc.2.2.2, htc.2.1, hInv.pending_eq]
        unfold checkedCount
        omega
      · intro sid
        rw [htc.2.2.1, htc.2.1]
        by_cases hsid : sid = e.song.id
        · subst hsid
          rw [adjustTotals_neededFor_self scr.song_totals e.song.id (-1) hentry,
            hInv.needed_eq e.song.id]
          unfold uncheckedCountFor
          omega
        · rw [adjustTotals_neededFor_other scr.song_totals e.song.id (-1) sid hsid,
            hInv.needed_eq sid, hunch_other sid hsid]
      · intro sid hp
        rw [htc.2.1, hpres] at hp
        rw [htc.2.2.1, adjustTotals_hasEntry]
        exact hInv.present_ex sid hp
    | true =>
      simp only [hec, Bool.not_true, if_true, Bool.false_eq_true,
        if_false] at htc hcc hunch_self
      have hccpos : 0 < checkedCount scr.binder_reports := by
        have h1 : 0 < r.songs.countP (fun m => m.checked) :=
          get?_countP_pos r.songs si _ e hm hec
        have h2 := get?_le_map_sum scr.binder_reports bi
          (fun t => t.songs.countP (fun m => m.checked)) r hr
        simp only at h2
        unfold checkedCount
        omega
      constructor
      · rw [htc.2.2.2, htc.2.1, hInv.pending_eq]
        unfold checkedCount at hccpos ⊢
        omega
      · intro sid
        rw [htc.2.2.1, htc.2.1]
        by_cases hsid : sid = e.song.id
        · subst hsid
          rw [adjustTotals_neededFor_self scr.song_totals e.song.id 1 hentry,
            hInv.needed_eq e.song.id]
          unfold uncheckedCountFor
          omega
        · rw [adjustTotals_neededFor_other scr.song_totals e.song.id 1 sid hsid,
            hInv.needed_eq sid, hunch_other sid hsid]
      · intro sid hp
        rw [htc.2.1, hpres] at hp
        rw [htc.2.2.1, adjustTotals_hasEntry]
        exact hInv.present_ex sid hp

/-- Screens reachable from the data handed to `with_data` when the To-Print
view opens: all checkboxes unchecked and totals matching the per-song
unchecked counts, as `open_to_print_view` produces them. -/
inductive TPReach : ToPrintScreen → Prop where
  | init (reports : List BinderReport) (totals : List SongNeeded)
      (hq : ∀ r ∈ reports, ∀ m ∈ r.songs, m.checked = false)
      (ht : ∀ sid, neededFor totals sid = uncheckedCountFor reports sid) :
      TPReach (ToPrintScreen.with_data reports totals)
  | tmode (s : ToPrintScreen) : TPReach s → TPReach s.toggle_mode
  | mv (s : ToPrintScreen) (d : Int) : TPReach s → TPReach (s.move_selection d)
  | first (s : ToPrintScreen) : TPReach s → TPReach s.select_first
  | last (s : ToPrintScreen) : TPReach s → TPReach s.select_last
  | tog (s : ToPrintScreen) : TPReach s → TPReach (s.toggle_current).2
  | rbr (s : ToPrintScreen) : TPReach s → TPReach s.refresh_binder_rows
  | rsr (s : ToPrintScreen) : TPReach s → TPReach s.refresh_song_rows

theorem tp_reach_inv (scr : ToPrintScreen) (h : TPReach scr) : ToPrintInv scr := by
  induction h with
  | init reports totals hq ht => exact with_data_inv reports totals hq ht
  | tmode s _ ih =>
    have hf := toggle_mode_core_fields s
    exact inv_transfer hf.1 hf.2.1 hf.2.2 ih
  | mv s d _ ih =>
    have hf := move_selection_core_fields s d
    exact inv_transfer hf.1 hf.2.1 hf.2.2 ih
  | first s _ ih =>
    have hf := select_first_core_fields s
    exact inv_transfer hf.1 hf.2.1 hf.2.2 ih
  | last s _ ih =>
    have hf := select_last_core_fields s
    exact inv_transfer hf.1 hf.2.1 hf.2.2 ih
  | tog s _ ih => exact toggle_current_inv s ih
  | rbr s _ ih =>
    have hf := refresh_binder_rows_fields s
    exact inv_transfer hf.1 hf.2.1 hf.2.2.1 ih
  | rsr s _ ih =>
    have hf := refresh_song_rows_fields s
    exact inv_transfer hf.1 hf.2.1 hf.2.2.1 ih

theorem pending_assignments_length_eq (scr : ToPrintScreen) :
    (scr.pending_assignments).length = checkedCount scr.binder_reports := by
  unfold ToPrintScreen.pending_assignments checkedCount
  induction scr.binder_reports with
  | nil => rfl
  | cons r rest ih =>
    simp only [List.flatMap_cons, List.length_append, List.map_cons,
      List.sum_cons, List.length_map, ih]
    rw [List.countP_eq_length_filter]

theorem toggle_some_false_pos (scr : ToPrintScreen)
    (h : (scr.toggle_current).1 = some false) :
    0 < checkedCount scr.binder_reports := by
  rcases toggle_current_cases scr with hnone |
    ⟨row, bi, si, e, hdir, hmode, hrow, hkind, hbi, hsi, he⟩
  · rw [hnone] at h
    simp at h
  · obtain ⟨r, hr, hm⟩ := Option.bind_eq_some.mp he
    have htc := toggle_current_flip scr row bi si e hdir hmode hrow hkind hbi hsi he
    rw [htc.1, Option.some.injEq] at h
    have hec : e.checked = true := by
      revert h
      cases e.checked <;> simp
    have h1 : 0 < r.songs.countP (fun m => m.checked) :=
      get?_countP_pos r.songs si _ e hm hec
    have h2 := get?_le_map_sum scr.binder_reports bi
      (fun t => t.songs.countP (fun m => m.checked)) r hr
    simp only at h2
    unfold checkedCount
    omega

/-! ## C9: the pending-changes counter invariant -/

/-- C9: in every To-Print state reachable from `with_data` (on opening data:
all checkboxes unchecked, totals matching the unchecked counts), the
pending-changes counter equals the number of checked entries, hence the
length of `pending_assignments`; and a toggle that unchecks a row always
finds a strictly positive counter, so its saturating decrement is exact. -/
theorem pending_changes_invariant (scr : ToPrintScreen) (hreach : TPReach scr) :
    scr.pending_changes = checkedCount scr.binder_reports
    ∧ scr.pending_changes = (scr.pending_assignments).length
    ∧ ((scr.toggle_current).1 = some false → 0 < scr.pending_changes) := by
  have hinv : ToPrintInv scr := tp_reach_inv scr hreach
  refine ⟨hinv.pending_eq, ?_, ?_⟩
  · rw [hinv.pending_eq, pending_assignments_length_eq]
  · intro hsome
    rw [hinv.pending_eq]
    exact toggle_some_false_pos scr hsome

/-- Witness for `pending_changes_invariant` on an empty report. -/
theorem pending_changes_invariant_witness :
    (ToPrintScreen.with_data [] []).pending_changes =
      ((ToPrintScreen.with_data [] []).pending_assignments).length := by
  have h := pending_changes_invariant (ToPrintScreen.with_data [] [])
    (TPReach.init [] [] (by intro r hr; simp at hr) (fun sid => rfl))
  exact h.2.1

/-! ## C2: toggling a row of the To-Print report -/

/-- C2: toggling is a no-op when no director binder exists, in song-grouped
mode, and on header rows; on a song row in binder-grouped mode, checking a
row returns `some true`, adds exactly 1 to the pending counter and removes
exactly 1 from that song's needed count, while unchecking returns
`some false` and reverses both exactly; needed counts are naturals and so
never negative. The exactness holds under the bookkeeping invariant that
every reachable screen satisfies. -/
theorem toggle_current_spec (scr : ToPrintScreen) (hInv : ToPrintInv scr) :
    (scr.director_exists = false → scr.toggle_current = (none, scr))
    ∧ (scr.mode = ToPrintMode.BySong → scr.toggle_current = (none, scr))
    ∧ (∀ row, scr.binder_rows.get? scr.selected_index = some row →
        row.kind = BinderRowKind.Header → scr.toggle_current = (none, scr))
    ∧ (∀ row bi si e,
        scr.binder_rows.get? scr.selected_index = some row →
        row.kind = BinderRowKind.Song →
        row.binder_index = some bi → row.song_index = some si →
        (scr.binder_reports.get? bi).bind (fun r => r.songs.get? si) = some e →
        scr.director_exists = true → scr.mode = ToPrintMode.ByBinder →
        ((e.checked = false →
            (scr.toggle_current).1 = some true
            ∧ (scr.toggle_current).2.pending_changes = scr.pending_changes + 1
            ∧ neededFor (scr.toggle_current).2.song_totals e.song.id + 1 =
                neededFor scr.song_totals e.song.id)
          ∧ (e.checked = true →
            (scr.toggle_current).1 = some false
            ∧ (scr.toggle_current).2.pending_changes + 1 = scr.pending_changes
            ∧ neededFor (scr.toggle_current).2.song_totals e.song.id =
                neededFor scr.song_totals e.song.id + 1)))
    ∧ (∀ sid, 0 ≤ (neededFor (scr.toggle_current).2.song_totals sid : Int)) := by
  refine ⟨?_, ?_, ?_, ?_, fun sid => Int.natCast_nonneg _⟩
  · intro hd
    unfold ToPrintScreen.toggle_current
    simp [hd]
  · intro hm
    unfold ToPrintScreen.toggle_current
    have : ¬ scr.mode = ToPrintMode.ByBinder := by
      rw [hm]
      intro hc
      cases hc
    simp [this]
  · intro row hrow hkind
    by_cases hdir : scr.director_exists = true
    · by_cases hmode : scr.mode = ToPrintMode.ByBinder
      · have hrow' : scr.binder_rows[scr.selected_index]? = some row := by
          simpa [List.get?_eq_getElem?] using hrow
        have hk : ¬ row.kind = BinderRowKind.Song := by
          rw [hkind]
          intro hc
          cases hc
        unfold ToPrintScreen.toggle_current
        simp [hdir, hmode, hrow', hk]
      · unfold ToPrintScreen.toggle_current
        simp [hmode]
    · have hd : scr.director_exists = false := by
        revert hdir
        cases scr.director_exists <;> simp
      unfold ToPrintScreen.toggle_current
      simp [hd]
  · intro row bi si e hrow hkind hbi hsi he hdir hmode
    obtain ⟨r, hr, hm⟩ := Option.bind_eq_some.mp he
    have htc := toggle_current_flip scr row bi si e hdir hmode hrow hkind hbi hsi he
    have hprespos : 0 < presentCount scr.binder_reports e.song.id := by
      have h1 : 0 < r.songs.countP (fun m => m.song.id == e.song.id) :=
        get?_countP_pos r.songs si _ e hm (by simp)
      have h2 := get?_le_map_sum scr.binder_reports bi
        (fun t => t.songs.countP (fun m => m.song.id == e.song.id)) r hr
      simp only at h2
      unfold presentCount
      omega
    have hentry : hasEntry scr.song_totals e.song.id = true :=
      hInv.present_ex e.song.id hprespos
    have hunch_self := flipReportAt_countP scr.binder_reports bi si r e
      (fun m => m.song.id == e.song.id && !m.checked) hr hm
    have hbe : (e.song.id == e.song.id) = true := by simp
    simp only [flipChecked, hbe, Bool.true_and, Bool.not_not] at hunch_self
    constructor
    · intro hec
      simp only [hec, Bool.not_false, if_true, Bool.false_eq_true, if_false] at htc hunch_self
      have huncpos : 0 < uncheckedCountFor scr.binder_reports e.song.id := by
        have h1 : 0 < r.songs.countP (fun m => m.song.id == e.song.id && !m.checked) :=
          get?_countP_pos r.songs si _ e hm (by simp [hec])
        have h2 := get?_le_map_sum scr.binder_reports bi
          (fun t => t.songs.countP (fun m => m.song.id == e.song.id && !m.checked)) r hr
        simp only at h2
        unfold uncheckedCountFor
        omega
      refine ⟨htc.1, htc.2.2.2, ?_⟩
      rw [htc.2.2.1,
        adjustTotals_neededFor_self scr.song_totals e.song.id (-1) hentry,
        hInv.needed_eq e.song.id]
      omega
    · intro hec
      simp only [hec, Bool.not_true, if_true, Bool.false_eq_true, if_false] at htc hunch_self
      have hccpos : 0 < checkedCount scr.binder_reports := by
        have h1 : 0 < r.songs.countP (fun m => m.checked) :=
          get?_countP_pos r.songs si _ e hm hec
        have h2 := get?_le_map_sum scr.binder_reports bi
          (fun t => t.songs.countP (fun m => m.checked)) r hr
        simp only at h2
        unfold checkedCount
        omega
      refine ⟨htc.1, ?_, ?_⟩
      · rw [htc.2.2.2, hInv.pending_eq]
        omega
      · rw [htc.2.2.1,
          adjustTotals_neededFor_self scr.song_totals e.song.id 1 hentry,
          hInv.needed_eq e.song.id]
        omega

/-- Concrete report for the toggle witness: binder 1 is missing one song. -/
def cReports : List BinderReport :=
  [⟨1, 1, lit "A", [⟨⟨20, lit "Silent Night", [], []⟩, false⟩]⟩]

/-- Concrete totals matching `cReports`. -/
def cTotals : List SongNeeded := [⟨⟨20, lit "Silent Night", [], []⟩, 1⟩]

theorem cScreen_inv :
    ToPrintInv ((ToPrintScreen.with_data cReports cTotals).move_selection 1) := by
  have hbase : ToPrintInv (ToPrintScreen.with_data cReports cTotals) := by
    apply with_data_inv
    · intro r hr m hm
      simp only [cReports, List.mem_singleton] at hr
      subst hr
      simp only [List.mem_singleton] at hm
      subst hm
      rfl
    · intro sid
      by_cases h : (20 : Int) = sid
      · subst h
        rfl
      · have hb : ((20 : Int) == sid) = false := by simp [h]
        simp [cTotals, cReports, neededFor, uncheckedCountFor, List.find?, hb,
          List.countP_cons, List.countP_nil]
  have hf := move_selection_core_fields (ToPrintScreen.with_data cReports cTotals) 1
  exact inv_transfer hf.1 hf.2.1 hf.2.2 hbase

/-- Witness for `toggle_current_spec`: checking the single missing-song row
returns `some true` and pushes the pending counter from 0 to 1. -/
theorem toggle_current_spec_witness :
    (((ToPrintScreen.with_data cReports cTotals).move_selection 1
      ).toggle_current).1 = some true
    ∧ (((ToPrintScreen.with_data cReports cTotals).move_selection 1
      ).toggle_current).2.pending_changes = 1 := by
  have h := toggle_current_spec
    ((ToPrintScreen.with_data cReports cTotals).move_selection 1) cScreen_inv
  have h4 := h.2.2.2.1
    ⟨BinderRowKind.Song, lit "[ ] Silent Night", some 0, some 0⟩ 0 0
    ⟨⟨20, lit "Silent Night", [], []⟩, false⟩
    (by decide) rfl rfl rfl (by decide) (by decide) (by decide)
  have hc := h4.1 rfl
  refine ⟨hc.1, ?_⟩
  rw [hc.2.1]
  decide

/-! ## C3: leaving the To-Print screen -/

/-- C3: in Normal mode on the To-Print screen with pending changes, the
keys q, Esc and p never terminate the app and never leave the screen —
they open the exit confirmation recording whether the app was quitting
(q) or just leaving (Esc/p); with no pending changes, q terminates at
once and Esc/p return to the binder grid. -/
theorem to_print_exit_guard (report : ToPrintScreen)
    (status : Option StatusMessage) :
    (report.pending_changes > 0 →
      (handleToPrintNormal (KeyCode.Char 'q') report status).exit = false
      ∧ (handleToPrintNormal (KeyCode.Char 'q') report status).screen =
          Screen.ToPrint report
      ∧ (handleToPrintNormal (KeyCode.Char 'q') report status).mode =
          Mode.ConfirmToPrintExit ⟨true, ConfirmPrintChoice.Apply⟩
      ∧ (handleToPrintNormal KeyCode.Esc report status).exit = false
      ∧ (handleToPrintNormal KeyCode.Esc report status).screen =
          Screen.ToPrint report
      ∧ (handleToPrintNormal KeyCode.Esc report status).mode =
          Mode.ConfirmToPrintExit ⟨false, ConfirmPrintChoice.Apply⟩
      ∧ (handleToPrintNormal (KeyCode.Char 'p') report status).exit = false
      ∧ (handleToPrintNormal (KeyCode.Char 'p') report status).screen =
          Screen.ToPrint report
      ∧ (handleToPrintNormal (KeyCode.Char 'p') report status).mode =
          Mode.ConfirmToPrintExit ⟨false, ConfirmPrintChoice.Apply⟩)
    ∧ (report.pending_changes = 0 →
      (handleToPrintNormal (KeyCode.Char 'q') report status).exit = true
      ∧ (handleToPrintNormal (KeyCode.Char 'q') report status).mode = Mode.Normal
      ∧ (handleToPrintNormal KeyCode.Esc report status).exit = false
      ∧ (handleToPrintNormal KeyCode.Esc report status).screen = Screen.Binders
      ∧ (handleToPrintNormal KeyCode.Esc report status).mode = Mode.Normal
      ∧ (handleToPrintNormal (KeyCode.Char 'p') report status).exit = false
      ∧ (handleToPrintNormal (KeyCode.Char 'p') report status).screen =
          Screen.Binders
      ∧ (handleToPrintNormal (KeyCode.Char 'p') report status).mode =
          Mode.Normal) := by
  constructor
  · intro hp
    have hb : report.has_pending_changes = true := by
      unfold ToPrintScreen.has_pending_changes
      simpa using hp
    refine ⟨?_, ?_, ?_, ?_, ?_, ?_, ?_, ?_, ?_⟩ <;>
      simp [handleToPrintNormal, hb, ConfirmToPrintExit.new]
  · intro hp
    have hb : report.has_pending_changes = false := by
      unfold ToPrintScreen.has_pending_changes
      simpa using hp
    refine ⟨?_, ?_, ?_, ?_, ?_, ?_, ?_, ?_⟩ <;>
      simp [handleToPrintNormal, hb]

/-- Witness for `to_print_exit_guard` on a screen with one pending change. -/
theorem to_print_exit_guard_witness :
    (handleToPrintNormal (KeyCode.Char 'q')
      { director_exists := true, mode := ToPrintMode.ByBinder,
        binder_reports := [], binder_rows := [], song_totals := [],
        song_rows := [], scroll := 0, selected_index := 0,
        pending_changes := 1 } none).exit = false := by
  have h := to_print_exit_guard
    { director_exists := true, mode := ToPrintMode.ByBinder,
      binder_reports := [], binder_rows := [], song_totals := [],
      song_rows := [], scroll := 0, selected_index := 0,
      pending_changes := 1 } none
  exact (h.1 (by decide)).1

/-! ## C4: binder-grid cursor movement -/

/-- C4 counterexample: with five binders on the grid, the cursor at index 4
sits in column 0 of the second row, yet Left moves it to index 3 — the
grid movement is clamped to the index range only, so moving left from
column 0 of a later row is not a no-op. -/
theorem grid_left_counterexample :
    (({ binders := [⟨1, 1, lit "A"⟩, ⟨2, 2, lit "B"⟩, ⟨3, 3, lit "C"⟩,
          ⟨4, 4, lit "D"⟩, ⟨5, 5, lit "E"⟩],
        selected := 4, composers := [], screen := Screen.Binders,
        mode := Mode.Normal, status := none, saved_search := none }
      : App).move_horizontal (-1)).selected = 3
    ∧ (4 : Nat) % GRID_COLUMNS = 0 := by
  decide

/-- C4 (amended): on the binder grid, Left/Right move the cursor by ±1 and
Up/Down by ±4, with any movement whose target falls outside
`[0, binder count)` a no-op; consequently moving left from index 0, up from
the first row, or right/down past the last binder is a no-op — but Left
from column 0 of a later row lands on the last column of the previous row
rather than staying put. -/
theorem grid_move_spec (app : App) (off : Int) (hscr : app.screen = Screen.Binders) :
    (app.move_horizontal off =
      (if 0 ≤ (app.selected : Int) + off
          ∧ (app.selected : Int) + off < (app.binder_count : Int)
        then { app with selected := ((app.selected : Int) + off).toNat }
        else app))
    ∧ (app.move_vertical off =
      (if 0 ≤ (app.selected : Int) + off * (GRID_COLUMNS : Int)
          ∧ (app.selected : Int) + off * (GRID_COLUMNS : Int) < (app.binder_count : Int)
        then { app with selected :=
            ((app.selected : Int) + off * (GRID_COLUMNS : Int)).toNat }
        else app))
    ∧ (app.selected = 0 → app.move_horizontal (-1) = app)
    ∧ (app.selected < GRID_COLUMNS → app.move_vertical (-1) = app)
    ∧ ((app.binder_count : Int) ≤ (app.selected : Int) + 1 →
        app.move_horizontal 1 = app)
    ∧ ((app.binder_count : Int) ≤ (app.selected : Int) + (GRID_COLUMNS : Int) →
        app.move_vertical 1 = app) := by
  have hh : ∀ off2 : Int, app.move_horizontal off2 =
      (if 0 ≤ (app.selected : Int) + off2
          ∧ (app.selected : Int) + off2 < (app.binder_count : Int)
        then { app with selected := ((app.selected : Int) + off2).toNat }
        else app) := by
    intro off2
    unfold App.move_horizontal
    rw [hscr]
    by_cases hemp : app.binders.isEmpty = true
    · have hlen : app.binders.length = 0 := by
        simpa [List.isEmpty_iff, List.length_eq_zero] using hemp
      have hcond : ¬(0 ≤ (app.selected : Int) + off2
          ∧ (app.selected : Int) + off2 < (app.binder_count : Int)) := by
        unfold App.binder_count
        rw [hlen]
        intro hc
        omega
      simp [hemp, hcond]
    · simp [hemp]
  have hv : ∀ off2 : Int, app.move_vertical off2 =
      (if 0 ≤ (app.selected : Int) + off2 * (GRID_COLUMNS : Int)
          ∧ (app.selected : Int) + off2 * (GRID_COLUMNS : Int) < (app.binder_count : Int)
        then { app with selected :=
            ((app.selected : Int) + off2 * (GRID_COLUMNS : Int)).toNat }
        else app) := by
    intro off2
    unfold App.move_vertical
    rw [hscr]
    by_cases hemp : app.binders.isEmpty = true
    · have hlen : app.binders.length = 0 := by
        simpa [List.isEmpty_iff, List.length_eq_zero] using hemp
      have hcond : ¬(0 ≤ (app.selected : Int) + off2 * (GRID_COLUMNS : Int)
          ∧ (app.selected : Int) + off2 * (GRID_COLUMNS : Int) < (app.binder_count : Int)) := by
        unfold App.binder_count
        rw [hlen]
        intro hc
        omega
      simp [hemp, hcond]
    · simp [hemp]
  refine ⟨hh off, hv off, ?_, ?_, ?_, ?_⟩
  · intro h0
    rw [hh (-1), if_neg ?_]
    intro hc
    omega
  · intro h0
    rw [hv (-1), if_neg ?_]
    unfold GRID_COLUMNS at h0 ⊢
    intro hc
    omega
  · intro h0
    rw [hh 1, if_neg ?_]
    intro hc
    omega
  · intro h0
    rw [hv 1, if_neg ?_]
    unfold GRID_COLUMNS at h0 ⊢
    intro hc
    omega

/-- Witness for `grid_move_spec`: on a two-binder grid, Right from the last
binder is a no-op. -/
theorem grid_move_spec_witness :
    (({ binders := [⟨1, 1, lit "A"⟩, ⟨2, 2, lit "B"⟩],
        selected := 1, composers := [], screen := Screen.Binders,
        mode := Mode.Normal, status := none, saved_search := none }
      : App).move_horizontal 1) =
    ({ binders := [⟨1, 1, lit "A"⟩, ⟨2, 2, lit "B"⟩],
        selected := 1, composers := [], screen := Screen.Binders,
        mode := Mode.Normal, status := none, saved_search := none }
      : App) := by
  have h := grid_move_spec
    ({ binders := [⟨1, 1, lit "A"⟩, ⟨2, 2, lit "B"⟩],
        selected := 1, composers := [], screen := Screen.Binders,
        mode := Mode.Normal, status := none, saved_search := none } : App)
    1 rfl
  exact h.2.2.2.2.1 (by decide)

/-! ## C6: composer autocomplete -/

theorem toLowerStr_length (s : Str) : (toLowerStr s).length = s.length := by
  unfold toLowerStr
  exact List.length_map s Char.toLower

theorem update_suggestion_fields (f : SongForm) (composers : List Str) :
    (f.update_suggestion composers).composer = f.composer
    ∧ (f.update_suggestion composers).active = f.active
    ∧ (f.update_suggestion composers).autocomplete_disabled =
        f.autocomplete_disabled := by
  refine ⟨?_, ?_, ?_⟩ <;>
  · unfold SongForm.update_suggestion SongForm.clear_suggestion
    dsimp only
    repeat' split
    all_goals rfl

theorem accept_suggestion_on (f : SongForm) (c : Str) (hs : f.suggestion = some c)
    (hlt : f.composer.length < c.length) :
    f.accept_suggestion =
      (true,
        { f with composer := c, autocomplete_disabled := true,
                 suggestion := none }) := by
  have hndrop : c.drop f.composer.length ≠ [] := by
    intro hnil
    have hlen := congrArg List.length hnil
    rw [List.length_drop] at hlen
    simp at hlen
    omega
  have hdropE : (c.drop f.composer.length).isEmpty = false := by
    cases hh : (c.drop f.composer.length).isEmpty
    · rfl
    · exact absurd (List.isEmpty_iff.mp hh) hndrop
  have hnlt : ¬ c.length < f.composer.length := by omega
  unfold SongForm.accept_suggestion SongForm.suggestion_suffix
  rw [hs]
  simp [hnlt, hdropE]

/-- C6: with the composer field active, autocomplete enabled and at least
two characters typed, `update_suggestion` offers the first cached composer
whose name starts with the field text case-insensitively — except when that
composer equals the text up to case; Tab on an active suggestion replaces
the composer field with the suggestion exactly and disables autocomplete;
any character insertion or backspace on the composer field re-enables it. -/
theorem composer_autocomplete_spec (f : SongForm) (composers : List Str)
    (h1 : f.active = SongField.Composer) (h2 : f.autocomplete_disabled = false)
    (h3 : 2 ≤ f.composer.length) :
    ((f.update_suggestion composers).suggestion =
      (match composers.find?
          (fun c => (toLowerStr f.composer).isPrefixOf (toLowerStr c)) with
       | none => none
       | some c => if toLowerStr c = toLowerStr f.composer then none else some c))
    ∧ (∀ c, (f.update_suggestion composers).suggestion = some c →
        (f.update_suggestion composers).accept_suggestion =
          (true,
            { (f.update_suggestion composers) with
                composer := c, autocomplete_disabled := true,
                suggestion := none }))
    ∧ (∀ (g : SongForm) (ch : Char), g.active = SongField.Composer →
        isControlChar ch = false →
        ((g.push_char ch).2).autocomplete_disabled = false)
    ∧ (∀ g : SongForm, g.active = SongField.Composer →
        (g.backspace).autocomplete_disabled = false) := by
  have hlen : ¬ f.composer.length < 2 := by omega
  have hupd : f.update_suggestion composers =
      (match composers.find?
          (fun c => (toLowerStr f.composer).isPrefixOf (toLowerStr c)) with
       | none => { f with suggestion := none }
       | some c =>
         if toLowerStr c = toLowerStr f.composer
         then { f with suggestion := none }
         else { f with suggestion := some c }) := by
    unfold SongForm.update_suggestion SongForm.clear_suggestion
    rw [if_neg (by simp [h1]), if_neg (by simp [h2, hlen])]
    dsimp only
    cases hfind : composers.find?
        (fun c => (toLowerStr f.composer).isPrefixOf (toLowerStr c)) with
    | none => rfl
    | some c =>
      dsimp only
      by_cases hB : toLowerStr c = toLowerStr f.composer
      · have hA : c.length = f.composer.length := by
          have := congrArg List.length hB
          rwa [toLowerStr_length, toLowerStr_length] at this
        rw [if_pos ⟨hA, hB⟩, if_pos hB]
      · rw [if_neg (fun hc => hB hc.2), if_neg hB]
  refine ⟨?_, ?_, ?_, ?_⟩
  · rw [hupd]
    cases hfind : composers.find?
        (fun c => (toLowerStr f.composer).isPrefixOf (toLowerStr c)) with
    | none => rfl
    | some c =>
      dsimp only
      by_cases hB : toLowerStr c = toLowerStr f.composer
      · rw [if_pos hB, if_pos hB]
      · rw [if_neg hB, if_neg hB]
  · intro c hc
    have hlt : f.composer.length < c.length := by
      rw [hupd] at hc
      cases hfind : composers.find?
          (fun t => (toLowerStr f.composer).isPrefixOf (toLowerStr t)) with
      | none =>
        rw [hfind] at hc
        simp at hc
      | some t =>
        rw [hfind] at hc
        dsimp only at hc
        have hpred := List.find?_some hfind
        have hpre : toLowerStr f.composer <+: toLowerStr t :=
          List.isPrefixOf_iff_prefix.mp hpred
        have hle : f.composer.length ≤ t.length := by
          have := hpre.length_le
          rwa [toLowerStr_length, toLowerStr_length] at this
        by_cases hB : toLowerStr t = toLowerStr f.composer
        · rw [if_pos hB] at hc
          simp at hc
        · rw [if_neg hB] at hc
          simp only [Option.some.injEq] at hc
          have hgoal : f.composer.length < t.length := by
            rcases Nat.lt_or_ge f.composer.length t.length with hlt2 | hge
            · exact hlt2
            · exfalso
              have heq : f.composer.length = t.length := by omega
              have heq2 : toLowerStr f.composer = toLowerStr t :=
                hpre.eq_of_length
                  (by rw [toLowerStr_length, toLowerStr_length]; exact heq)
              exact hB heq2.symm
          exact hc ▸ hgoal
    have hflds := update_suggestion_fields f composers
    have := accept_suggestion_on (f.update_suggestion composers) c hc
      (by rw [hflds.1]; exact hlt)
    exact this
  · intro g ch hact hctl
    unfold SongForm.push_char
    rw [if_neg (by simp [hctl]), hact]
  · intro g hact
    unfold SongForm.backspace
    rw [hact]

/-- Concrete form of the spec's autocomplete scenario. -/
def cSongForm : SongForm :=
  { title := [], composer := lit "Ba", link := [],
    active := SongField.Composer, error := none, suggestion := none,
    autocomplete_disabled := false }

/-- Cached composers of the spec's autocomplete scenario. -/
def cComposers : List Str := [lit "Bach", lit "Barber"]

/-- Witness for `composer_autocomplete_spec`: "Ba" suggests "Bach", and
accepting sets the field to exactly "Bach" with autocomplete disabled. -/
theorem composer_autocomplete_spec_witness :
    ((cSongForm.update_suggestion cComposers).suggestion = some (lit "Bach"))
    ∧ ((cSongForm.update_suggestion cComposers).accept_suggestion).2.composer =
        lit "Bach"
    ∧ ((cSongForm.update_suggestion cComposers).accept_suggestion
        ).2.autocomplete_disabled = true := by
  have h := composer_autocomplete_spec cSongForm cComposers rfl rfl (by decide)
  have hs : (cSongForm.update_suggestion cComposers).suggestion =
      some (lit "Bach") := by
    rw [h.1]
    decide
  have ha := h.2.1 (lit "Bach") hs
  exact ⟨hs, by rw [ha], by rw [ha]⟩

/-! ## C7: duplicate binder number -/

/-- C7: creating a binder whose number collides with an existing row fails
with the uniqueness message naming the number, leaves the store untouched,
and keeps the add-binder form open with the error recorded on it. -/
theorem duplicate_binder_spec (app : App) (db : DbState) (form : BinderForm)
    (n : Int) (label : Str)
    (hp : form.parse_inputs = Except.ok (n, label))
    (hd : ∃ b ∈ db.binders, b.number = n) :
    handle_add_binder KeyCode.Enter form app db =
      (Mode.AddingBinder
        { form with error := some (lit "Binder number " ++ intStr n ++ lit " already exists.") },
       app.set_status
         (lit "Binder number " ++ intStr n ++ lit " already exists.")
         StatusKind.Error,
       db) := by
  obtain ⟨b, hb, hnum⟩ := hd
  have hany : db.binders.any (fun t => t.number == n) = true :=
    List.any_eq_true.mpr ⟨b, hb, by simp [hnum]⟩
  unfold handle_add_binder App.save_new_binder create_binder
  rw [hp]
  dsimp only
  rw [if_pos hany]
  rfl

/-- Concrete store with binder number 3 taken. -/
def cDb : DbState := { binders := [⟨7, 3, lit "Old"⟩], nextBinderId := 8 }

/-- Concrete app for the duplicate-binder witness. -/
def cApp : App :=
  { binders := [⟨7, 3, lit "Old"⟩], selected := 0, composers := [],
    screen := Screen.Binders, mode := Mode.Normal, status := none,
    saved_search := none }

/-- Witness for `duplicate_binder_spec`: submitting number 3 again leaves
the store unchanged and keeps the form open carrying the error message. -/
theorem duplicate_binder_spec_witness :
    (handle_add_binder KeyCode.Enter
      { number := lit "3", label := lit "Choir",
        active := BinderField.Number, error := none } cApp cDb).2.2 = cDb
    ∧ (handle_add_binder KeyCode.Enter
      { number := lit "3", label := lit "Choir",
        active := BinderField.Number, error := none } cApp cDb).1 =
      Mode.AddingBinder
        { number := lit "3", label := lit "Choir",
          active := BinderField.Number,
          error := some (lit "Binder number 3 already exists.") } := by
  have h := duplicate_binder_spec cApp cDb
    { number := lit "3", label := lit "Choir",
      active := BinderField.Number, error := none } 3 (lit "Choir")
    (by rfl) ⟨⟨7, 3, lit "Old"⟩, by decide, rfl⟩
  constructor
  · rw [h]
  · rw [h]
    decide

end CBM
